import Mathlib

/-! RK628 combo TX PHY (`rk628_combtxphy.c`): divider computation of `set_mode` and
the power sequences.

A shallow embedding of `rk628_combtxphy_set_mode`, `rk628_combtxphy_power_on` and
`rk628_combtxphy_power_off` and of the data they work on.
C `unsigned int` values are natural numbers reduced modulo `2^32` wherever the
C operation can wrap; the `u8`/`u16` struct fields are reduced modulo `2^8` /
`2^16` when they are stored; the C `int` bus width is an integer. Registers are
32-bit words held in two maps from address to value; the outcome of the PLL lock
poll is a parameter of `power_on`.
-/

namespace RK628

/-! ## Machine integers -/

/-- Value of a C `unsigned int` expression: reduction modulo `2^32`. -/
def u32 (x : Nat) : Nat := x % 4294967296

/-- Value stored in a `u8` struct field. -/
def u8 (x : Nat) : Nat := x % 256

/-- Value stored in a `u16` struct field. -/
def u16 (x : Nat) : Nat := x % 65536

/-- Subtraction of two C `unsigned int` values: the difference modulo `2^32`. -/
def u32_sub (a b : Nat) : Nat := (a % 4294967296 + 4294967296 - b % 4294967296) % 4294967296

/-- Conversion of a C `int` to `unsigned int` (two's complement bit pattern). -/
def to_u32 (x : Int) : Nat := (x % 4294967296).toNat

/-- Conversion of a C `unsigned int` to `int` (two's complement). -/
def to_int (x : Nat) : Int :=
  if x % 4294967296 < 2147483648 then ((x % 4294967296 : Nat) : Int)
  else ((x % 4294967296 : Nat) : Int) - 4294967296

/-- Smallest value of a C `int`. -/
def INT_MIN : Int := -2147483648

/-- Largest value of a C `int`. -/
def INT_MAX : Int := 2147483647

/-- Modelled from the spec: `EINVAL` comes from the kernel's errno header, which is
not part of the sources; the spec calls `-EINVAL` the invalid-argument failure. -/
def EINVAL : Int := 22

/-- Modelled from the spec: `DIV_ROUND_UP` is a kernel macro (`linux/kernel.h`), not
part of the sources; the spec says the division by `1024*ref_div` rounds up. The
kernel macro is `((n) + (d) - 1) / (d)`, evaluated in `unsigned int`. -/
def DIV_ROUND_UP (n d : Nat) : Nat := u32_sub (u32 (n + d)) 1 / d

/-! ## Data model -/

/-- Modelled from the spec: `enum phy_mode` is declared in `linux/phy/phy.h`, which is
not part of the sources. The spec's mode is one of MIPI-DSI, LVDS, GVI or unset;
every other enumerator of the kernel enum is `PHY_MODE_OTHER`. -/
inductive phy_mode where
  | PHY_MODE_INVALID
  | PHY_MODE_VIDEO_MIPI
  | PHY_MODE_VIDEO_LVDS
  | PHY_MODE_GVI
  | PHY_MODE_OTHER (tag : Nat)
  deriving DecidableEq

/-- The configuration fields of `struct rk628_combtxphy` (the spec's PhyConfig). -/
structure rk628_combtxphy where
  mode : phy_mode
  flags : Nat
  ref_div : Nat
  fb_div : Nat
  frac_div : Nat
  rate_div : Nat
  deriving DecidableEq

/-- The hardware behind the handles of `struct rk628_combtxphy`: the PHY register map
and the general register file (register value by address), the bus clock and the
reset line. The reset line is its present level together with the levels it has been
driven to so far, most recent first (`true` is asserted), so that a pulse is
observable after the line is back to its level. -/
structure hw_state where
  regmap : Nat → Nat
  grf : Nat → Nat
  pclk_enabled : Bool
  rstc_asserted : Bool
  rstc_history : List Bool

/-- A `struct phy` with its driver data: the bus-width attribute (a C `int` as read by
`phy_get_bus_width`), the driver's configuration and the hardware it drives. -/
structure phy where
  bus_width : Int
  drvdata : rk628_combtxphy
  hw : hw_state

/-- Reads the bus-width attribute of the phy. -/
def phy_get_bus_width (p : phy) : Int := p.bus_width

/-- Stores the bus-width attribute of the phy. -/
def phy_set_bus_width (p : phy) (bus_width : Int) : phy :=
  { p with bus_width := bus_width }

/-! ## `rk628_combtxphy_set_mode` -/

/-- The function `rk628_combtxphy_set_mode`: returns the C return value and the state
after the call. -/
def rk628_combtxphy_set_mode (p : phy) (mode : phy_mode) : Int × phy :=
  let combtxphy := p.drvdata
  let fin : Nat := 24
  match mode with
  | .PHY_MODE_VIDEO_MIPI =>
    let bus_width := phy_get_bus_width p
    let fhsc := to_u32 (bus_width >>> (8 : Nat))
    let flags := to_u32 bus_width &&& 0xff
    let fhsc := u32 (fin * (fhsc / fin))
    if fhsc < 80 ∨ fhsc > 1500 then
      (-EINVAL, p)
    else
      let combtxphy := { combtxphy with
        rate_div := if fhsc < 375 then 4 else if fhsc < 750 then 2 else 1 }
      let combtxphy := { combtxphy with flags := flags }
      let fvco := u32 (u32 (fhsc * 2) * combtxphy.rate_div)
      let combtxphy := { combtxphy with ref_div := 1 }
      let combtxphy := { combtxphy with fb_div := u8 (fvco / 8 / fin) }
      let frac_rate := u32_sub fvco (u32 (u32 (fin * 8) * combtxphy.fb_div))
      let combtxphy :=
        if frac_rate ≠ 0 then
          let frac_rate := u32 (frac_rate <<< 10)
          let frac_rate := frac_rate / u32 (fin * 8)
          { combtxphy with frac_div := u16 frac_rate }
        else
          { combtxphy with frac_div := 0 }
      let fvco := u32 (fin * (1024 * combtxphy.fb_div + combtxphy.frac_div))
      let fvco := u32 (fvco * 8)
      let fvco := DIV_ROUND_UP fvco (1024 * combtxphy.ref_div)
      let fhsc := fvco / 2 / combtxphy.rate_div
      let p := phy_set_bus_width p (to_int fhsc)
      let combtxphy := { combtxphy with mode := mode }
      (0, { p with drvdata := combtxphy })
  | .PHY_MODE_VIDEO_LVDS =>
    let bus_width := phy_get_bus_width p
    let flags := to_u32 bus_width &&& 0xff
    let rate := to_u32 ((bus_width >>> (8 : Nat)) * 7)
    let combtxphy := { combtxphy with flags := flags }
    let combtxphy := { combtxphy with ref_div := 1 }
    let combtxphy := { combtxphy with fb_div := 14 }
    let combtxphy := { combtxphy with frac_div := 0 }
    let combtxphy := { combtxphy with
      rate_div := if rate < 500 then 4 else if rate < 1000 then 2 else 1 }
    let combtxphy := { combtxphy with mode := mode }
    (0, { p with drvdata := combtxphy })
  | .PHY_MODE_GVI =>
    let fhsc := to_u32 (phy_get_bus_width p) &&& 0xfff
    if fhsc < 500 ∨ fhsc > 4000 then
      (-EINVAL, p)
    else
      let combtxphy := { combtxphy with
        rate_div := if fhsc < 1000 then 4 else if fhsc < 2000 then 2 else 1 }
      let fvco := u32 (fhsc * combtxphy.rate_div)
      let combtxphy := { combtxphy with ref_div := 1 }
      let combtxphy := { combtxphy with fb_div := u8 (fvco / 8 / fin) }
      let frac_rate := u32_sub fvco (u32 (u32 (fin * 8) * combtxphy.fb_div))
      let combtxphy :=
        if frac_rate ≠ 0 then
          let frac_rate := u32 (frac_rate <<< 10)
          let frac_rate := frac_rate / u32 (fin * 8)
          { combtxphy with frac_div := u16 frac_rate }
        else
          { combtxphy with frac_div := 0 }
      let fvco := u32 (fin * (1024 * combtxphy.fb_div + combtxphy.frac_div))
      let fvco := u32 (fvco * 8)
      let fvco := fvco / (1024 * combtxphy.ref_div)
      let fhsc := fvco / combtxphy.rate_div
      let p := phy_set_bus_width p (to_int fhsc)
      let combtxphy := { combtxphy with mode := mode }
      (0, { p with drvdata := combtxphy })
  | _ => (-EINVAL, p)

/-- The function `rk628_combtxphy_set_mode` once more, statement by statement, with
every intermediate named before it is reduced: each conversion of an `int` to
`unsigned int` is `to_u32 x`, each `unsigned int` result is `u32 x` (or `to_u32 x` for
a difference) and each store of a computed value to a `u8` or `u16` field is `u8 x`
or `u16 x`, where `x` is the exact value, named by a `let` of its own (the constants
stored to `rate_div`, `ref_div`, `fb_div` and `frac_div` need no reduction). The second component lists these exact
values in the order of the source, each with the width of its destination: 32 for an
`unsigned int`, 8 and 16 for the narrow fields, 31 for a non-negative `int` (the
operands of the recomputation and the rate handed to `phy_set_bus_width`). An entry
that is non-negative and below `2^width` is kept by its reduction: it did not wrap and
was not truncated. -/
def rk628_combtxphy_set_mode_traced (p : phy) (mode : phy_mode) :
    (Int × phy) × List (Int × Nat) :=
  let combtxphy : rk628_combtxphy := p.drvdata
  let fin : Nat := 24
  match mode with
  | .PHY_MODE_VIDEO_MIPI =>
    let bus_width : Int := phy_get_bus_width p
    let x_shift : Int := bus_width >>> (8 : Nat)
    let fhsc : Nat := to_u32 x_shift
    let x_flags : Nat := to_u32 bus_width &&& 0xff
    let flags : Nat := x_flags
    let x_round : Nat := fin * (fhsc / fin)
    let fhsc : Nat := u32 x_round
    if fhsc < 80 ∨ fhsc > 1500 then
      ((-EINVAL, p), [(x_shift, 32), (Int.ofNat x_flags, 32), (Int.ofNat x_round, 32)])
    else
      let combtxphy : rk628_combtxphy := { combtxphy with
        rate_div := if fhsc < 375 then 4 else if fhsc < 750 then 2 else 1 }
      let combtxphy : rk628_combtxphy := { combtxphy with flags := flags }
      let x_dbl : Nat := fhsc * 2
      let x_fvco : Nat := u32 x_dbl * combtxphy.rate_div
      let fvco : Nat := u32 x_fvco
      let combtxphy : rk628_combtxphy := { combtxphy with ref_div := 1 }
      let x_fb : Nat := fvco / 8 / fin
      let combtxphy : rk628_combtxphy := { combtxphy with fb_div := u8 x_fb }
      let x_fin8 : Nat := fin * 8
      let x_prod : Nat := u32 x_fin8 * combtxphy.fb_div
      let x_diff : Int := Int.ofNat fvco - Int.ofNat (u32 x_prod)
      let frac_rate : Nat := to_u32 x_diff
      let x_shl : Nat := frac_rate <<< 10
      let x_quot : Nat := u32 x_shl / u32 x_fin8
      let combtxphy : rk628_combtxphy :=
        if frac_rate ≠ 0 then
          { combtxphy with frac_div := u16 x_quot }
        else
          { combtxphy with frac_div := 0 }
      let t_frac : List (Int × Nat) :=
        if frac_rate ≠ 0 then [(Int.ofNat x_shl, 32), (Int.ofNat x_quot, 16)] else []
      let x_sum : Nat := 1024 * combtxphy.fb_div + combtxphy.frac_div
      let x_mul : Nat := fin * x_sum
      let fvco : Nat := u32 x_mul
      let x_mul8 : Nat := fvco * 8
      let fvco : Nat := u32 x_mul8
      let x_den : Nat := 1024 * combtxphy.ref_div
      let x_add : Nat := fvco + x_den
      let x_dec : Int := Int.ofNat (u32 x_add) - 1
      let fvco : Nat := to_u32 x_dec / x_den
      let fhsc : Nat := fvco / 2 / combtxphy.rate_div
      let p : phy := phy_set_bus_width p (to_int fhsc)
      let combtxphy : rk628_combtxphy := { combtxphy with mode := mode }
      ((0, { p with drvdata := combtxphy }),
        [(x_shift, 32), (Int.ofNat x_flags, 32), (Int.ofNat x_round, 32),
          (Int.ofNat x_dbl, 32), (Int.ofNat x_fvco, 32), (Int.ofNat x_fb, 8),
          (Int.ofNat x_fin8, 32), (Int.ofNat x_prod, 32), (x_diff, 32)] ++ t_frac ++
        [(Int.ofNat x_sum, 31), (Int.ofNat x_mul, 32), (Int.ofNat x_mul8, 32),
          (Int.ofNat x_den, 31), (Int.ofNat x_add, 32), (x_dec, 32), (Int.ofNat fhsc, 31)])
  | .PHY_MODE_VIDEO_LVDS =>
    let bus_width : Int := phy_get_bus_width p
    let x_flags : Nat := to_u32 bus_width &&& 0xff
    let flags : Nat := x_flags
    let x_rate : Int := (bus_width >>> (8 : Nat)) * 7
    let rate : Nat := to_u32 x_rate
    let combtxphy : rk628_combtxphy := { combtxphy with flags := flags }
    let combtxphy : rk628_combtxphy := { combtxphy with ref_div := 1 }
    let combtxphy : rk628_combtxphy := { combtxphy with fb_div := 14 }
    let combtxphy : rk628_combtxphy := { combtxphy with frac_div := 0 }
    let combtxphy : rk628_combtxphy := { combtxphy with
      rate_div := if rate < 500 then 4 else if rate < 1000 then 2 else 1 }
    let combtxphy : rk628_combtxphy := { combtxphy with mode := mode }
    ((0, { p with drvdata := combtxphy }), [(Int.ofNat x_flags, 32), (x_rate, 32)])
  | .PHY_MODE_GVI =>
    let x_field : Nat := to_u32 (phy_get_bus_width p) &&& 0xfff
    let fhsc : Nat := x_field
    if fhsc < 500 ∨ fhsc > 4000 then
      ((-EINVAL, p), [(Int.ofNat x_field, 32)])
    else
      let combtxphy : rk628_combtxphy := { combtxphy with
        rate_div := if fhsc < 1000 then 4 else if fhsc < 2000 then 2 else 1 }
      let x_fvco : Nat := fhsc * combtxphy.rate_div
      let fvco : Nat := u32 x_fvco
      let combtxphy : rk628_combtxphy := { combtxphy with ref_div := 1 }
      let x_fb : Nat := fvco / 8 / fin
      let combtxphy : rk628_combtxphy := { combtxphy with fb_div := u8 x_fb }
      let x_fin8 : Nat := fin * 8
      let x_prod : Nat := u32 x_fin8 * combtxphy.fb_div
      let x_diff : Int := Int.ofNat fvco - Int.ofNat (u32 x_prod)
      let frac_rate : Nat := to_u32 x_diff
      let x_shl : Nat := frac_rate <<< 10
      let x_quot : Nat := u32 x_shl / u32 x_fin8
      let combtxphy : rk628_combtxphy :=
        if frac_rate ≠ 0 then
          { combtxphy with frac_div := u16 x_quot }
        else
          { combtxphy with frac_div := 0 }
      let t_frac : List (Int × Nat) :=
        if frac_rate ≠ 0 then [(Int.ofNat x_shl, 32), (Int.ofNat x_quot, 16)] else []
      let x_sum : Nat := 1024 * combtxphy.fb_div + combtxphy.frac_div
      let x_mul : Nat := fin * x_sum
      let fvco : Nat := u32 x_mul
      let x_mul8 : Nat := fvco * 8
      let fvco : Nat := u32 x_mul8
      let x_den : Nat := 1024 * combtxphy.ref_div
      let fvco : Nat := fvco / x_den
      let fhsc : Nat := fvco / combtxphy.rate_div
      let p : phy := phy_set_bus_width p (to_int fhsc)
      let combtxphy : rk628_combtxphy := { combtxphy with mode := mode }
      ((0, { p with drvdata := combtxphy }),
        [(Int.ofNat x_field, 32), (Int.ofNat x_fvco, 32), (Int.ofNat x_fb, 8),
          (Int.ofNat x_fin8, 32), (Int.ofNat x_prod, 32), (x_diff, 32)] ++ t_frac ++
        [(Int.ofNat x_sum, 31), (Int.ofNat x_mul, 32), (Int.ofNat x_mul8, 32),
          (Int.ofNat x_den, 31), (Int.ofNat fhsc, 31)])
  | _ => ((-EINVAL, p), [])

/-- The fractional divider as the spec words it (section 4.1, steps 4 and 5), for a
desired VCO frequency `fvco` and `fin = 24`: `fb_div = floor(fvco / (8*fin))`,
`frac_rate = fvco - fin*8*fb_div`, and `frac_div = round((frac_rate << 10) / (fin*8))`
(rounded to the nearest integer) when `frac_rate` is nonzero, else 0. -/
def spec_frac_div (fvco : Nat) : Nat :=
  let fb_div := fvco / (8 * 24)
  let frac_rate := fvco - 24 * 8 * fb_div
  if frac_rate ≠ 0 then (2 * (frac_rate <<< 10) + 24 * 8) / (2 * (24 * 8)) else 0

/-- The fractional divider as the source computes it from `fvco` (the statements from
`fb_div = fvco / 8 / fin` to the `if (frac_rate)` block), on unbounded naturals: the
quotient `(frac_rate << 10) / (fin*8)` is truncated, and it is 0 for `frac_rate = 0`. -/
def trunc_frac_div (fvco : Nat) : Nat :=
  let fb_div := fvco / (8 * 24)
  let frac_rate := fvco - 24 * 8 * fb_div
  if frac_rate ≠ 0 then (frac_rate <<< 10) / (24 * 8) else 0

/-- A phy whose configuration is all zero, as after `devm_kzalloc` in probe, with the
given bus width. -/
def phy0 (bus_width : Int) : phy :=
  { bus_width := bus_width
    drvdata := { mode := .PHY_MODE_INVALID, flags := 0, ref_div := 0, fb_div := 0,
                 frac_div := 0, rate_div := 0 }
    hw := { regmap := fun _ => 0, grf := fun _ => 0, pclk_enabled := false,
            rstc_asserted := false, rstc_history := [] } }

/-! ## Register fields of the combo TX PHY -/

/-- Modelled from the spec: `BIT` is a kernel macro (`linux/bits.h`), not part of the
sources; `BIT(n)` is the word with only bit `n` set. -/
def BIT (n : Nat) : Nat := 1 <<< n

/-- Modelled from the spec: `GENMASK` is a kernel macro (`linux/bits.h`), not part of
the sources; `GENMASK(h, l)` is the word with exactly the bits `l` to `h` set. -/
def GENMASK (h l : Nat) : Nat := 2 ^ (h + 1) - 2 ^ l

/-- Modelled from the spec: `UPDATE` is a macro of `linux/mfd/rk628.h`, not part of the
sources; `UPDATE(x, h, l)` places `x` in the register field of bits `l` to `h`,
`((x) << (l)) & GENMASK((h), (l))`. -/
def UPDATE (x h l : Nat) : Nat := u32 (x <<< l) &&& GENMASK h l

/-- The macro `REG`: offset of the PHY register block. -/
def REG (x : Nat) : Nat := x + 0x90000

def COMBTXPHY_CON0 : Nat := REG 0x0000
def SW_TX_IDLE_MASK : Nat := GENMASK 29 20
def SW_TX_IDLE (x : Nat) : Nat := UPDATE x 29 20
def SW_TX_PD_MASK : Nat := GENMASK 17 8
def SW_TX_PD (x : Nat) : Nat := UPDATE x 17 8
def SW_BUS_WIDTH_MASK : Nat := GENMASK 6 5
def SW_BUS_WIDTH_7BIT : Nat := UPDATE 0x3 6 5
def SW_BUS_WIDTH_8BIT : Nat := UPDATE 0x2 6 5
def SW_BUS_WIDTH_9BIT : Nat := UPDATE 0x1 6 5
def SW_BUS_WIDTH_10BIT : Nat := UPDATE 0x0 6 5
def SW_PD_PLL_MASK : Nat := BIT 4
def SW_PD_PLL : Nat := BIT 4
def SW_GVI_LVDS_EN_MASK : Nat := BIT 3
def SW_GVI_LVDS_EN : Nat := BIT 3
def SW_MIPI_DSI_EN_MASK : Nat := BIT 2
def SW_MIPI_DSI_EN : Nat := BIT 2
def SW_MODULEB_EN_MASK : Nat := BIT 1
def SW_MODULEB_EN : Nat := BIT 1
def SW_MODULEA_EN_MASK : Nat := BIT 0
def SW_MODULEA_EN : Nat := BIT 0
def COMBTXPHY_CON5 : Nat := REG 0x0014
def SW_RATE (x : Nat) : Nat := UPDATE x 26 24
def SW_REF_DIV (x : Nat) : Nat := UPDATE x 20 16
def SW_PLL_FB_DIV (x : Nat) : Nat := UPDATE x 14 10
def SW_PLL_FRAC_DIV (x : Nat) : Nat := UPDATE x 9 0
def COMBTXPHY_CON7 : Nat := REG 0x001c
def SW_TX_MODE_MASK : Nat := GENMASK 17 16
def SW_TX_MODE (x : Nat) : Nat := UPDATE x 17 16
def COMBTXPHY_CON9 : Nat := REG 0x0024
def SW_DSI_FSET_EN_MASK : Nat := BIT 29
def SW_DSI_FSET_EN : Nat := BIT 29
def SW_DSI_RCAL_EN_MASK : Nat := BIT 28
def SW_DSI_RCAL_EN : Nat := BIT 28
def COMBTXPHY_CON10 : Nat := REG 0x0028
def TX7_CKDRV_EN : Nat := BIT 7
def TX2_CKDRV_EN : Nat := BIT 2

/-- The constants of `linux/mfd/rk628.h` that the driver uses and the sources do not
define: the general-register-file register and field that select the PHY reference
clock, and the two module-enable bits of `flags`. They are parameters of the model. -/
structure rk628_h where
  GRF_POST_PROC_CON : Nat
  SW_TXPHY_REFCLK_SEL_MASK : Nat
  SW_TXPHY_REFCLK_SEL : Nat → Nat
  COMBTXPHY_MODULEA_EN : Nat
  COMBTXPHY_MODULEB_EN : Nat

/-- A sample instance of the header constants, for evaluation at concrete inputs. -/
def rk628_h0 : rk628_h :=
  { GRF_POST_PROC_CON := 0x0034
    SW_TXPHY_REFCLK_SEL_MASK := GENMASK 6 5
    SW_TXPHY_REFCLK_SEL := fun x => UPDATE x 6 5
    COMBTXPHY_MODULEA_EN := BIT 0
    COMBTXPHY_MODULEB_EN := BIT 1 }

/-! ## The register channel, the clock and the reset line -/

/-- The two register maps the driver holds: `combtxphy->regmap` and `combtxphy->grf`. -/
inductive regmap_id where
  | regmap
  | grf
  deriving DecidableEq

/-- Modelled from the spec: the register channel's `updateBits` (`regmap_update_bits`
of the kernel, not part of the sources): the bits of `mask` in a 32-bit register are
replaced by those of `val`, the other bits are kept. -/
def update_bits (orig mask val : Nat) : Nat :=
  (orig &&& (0xffffffff ^^^ mask)) ||| (val &&& mask)

/-- Modelled from the spec: `regmap_update_bits` on one of the two register maps; see
`update_bits`. -/
def regmap_update_bits (hw : hw_state) (map : regmap_id) (reg mask val : Nat) : hw_state :=
  match map with
  | .regmap =>
    { hw with regmap := fun r => if r = reg then update_bits (hw.regmap reg) mask val
                                  else hw.regmap r }
  | .grf =>
    { hw with grf := fun r => if r = reg then update_bits (hw.grf reg) mask val
                               else hw.grf r }

/-- Modelled from the spec: the register channel's `write` (`regmap_write` of the
kernel, not part of the sources): the 32-bit register takes the value. -/
def regmap_write (hw : hw_state) (map : regmap_id) (reg val : Nat) : hw_state :=
  match map with
  | .regmap => { hw with regmap := fun r => if r = reg then u32 val else hw.regmap r }
  | .grf => { hw with grf := fun r => if r = reg then u32 val else hw.grf r }

/-- Modelled from the spec: `ClockControl.enable` (`clk_prepare_enable`). -/
def clk_prepare_enable (hw : hw_state) : hw_state := { hw with pclk_enabled := true }

/-- Modelled from the spec: `ClockControl.disable` (`clk_disable_unprepare`). -/
def clk_disable_unprepare (hw : hw_state) : hw_state := { hw with pclk_enabled := false }

/-- Modelled from the spec: `ResetControl.assert` (`reset_control_assert`). -/
def reset_control_assert (hw : hw_state) : hw_state :=
  { hw with rstc_asserted := true, rstc_history := true :: hw.rstc_history }

/-- Modelled from the spec: `ResetControl.deassert` (`reset_control_deassert`). -/
def reset_control_deassert (hw : hw_state) : hw_state :=
  { hw with rstc_asserted := false, rstc_history := false :: hw.rstc_history }

/-- The divider word the three power-on routines write to `COMBTXPHY_CON5`. The operand
`ref_div - 1` is an `int`; its bit pattern is what is shifted into the field. -/
def con5_word (combtxphy : rk628_combtxphy) : Nat :=
  SW_REF_DIV (to_u32 ((combtxphy.ref_div : Int) - 1)) |||
  SW_PLL_FB_DIV combtxphy.fb_div |||
  SW_PLL_FRAC_DIV combtxphy.frac_div |||
  SW_RATE (combtxphy.rate_div / 2)

/-! ## Power sequencing

The lock poll `regmap_read_poll_timeout(grf, GRF_DPHY0_STATUS, val, val & DPHY_PHYLOCK,
0, 1000)` only reads; its outcome depends on the hardware and is a parameter `poll` of
the model: the value the poll returns, 0 when the lock bit was observed and a negative
error code when it was not. -/

/-- The function `rk628_combtxphy_dsi_power_on`. -/
def rk628_combtxphy_dsi_power_on (k : rk628_h) (poll : Int) (p : phy) : Int × phy :=
  let combtxphy := p.drvdata
  let hw := regmap_update_bits p.hw .regmap COMBTXPHY_CON0
    (SW_BUS_WIDTH_MASK ||| SW_GVI_LVDS_EN_MASK ||| SW_MIPI_DSI_EN_MASK)
    (SW_BUS_WIDTH_8BIT ||| SW_MIPI_DSI_EN)
  let hw :=
    if combtxphy.flags &&& k.COMBTXPHY_MODULEA_EN ≠ 0 then
      regmap_update_bits hw .regmap COMBTXPHY_CON0 SW_MODULEA_EN_MASK SW_MODULEA_EN
    else hw
  let hw :=
    if combtxphy.flags &&& k.COMBTXPHY_MODULEB_EN ≠ 0 then
      regmap_update_bits hw .regmap COMBTXPHY_CON0 SW_MODULEB_EN_MASK SW_MODULEB_EN
    else hw
  let hw := regmap_write hw .regmap COMBTXPHY_CON5 (con5_word combtxphy)
  let hw := regmap_update_bits hw .regmap COMBTXPHY_CON0 SW_PD_PLL 0
  let ret := poll
  if ret < 0 then
    (ret, { p with hw := hw })
  else
    let hw := regmap_update_bits hw .regmap COMBTXPHY_CON9
      (SW_DSI_FSET_EN_MASK ||| SW_DSI_RCAL_EN_MASK) (SW_DSI_FSET_EN ||| SW_DSI_RCAL_EN)
    (0, { p with hw := hw })

/-- The function `rk628_combtxphy_lvds_power_on`. -/
def rk628_combtxphy_lvds_power_on (k : rk628_h) (poll : Int) (p : phy) : Int × phy :=
  let combtxphy := p.drvdata
  let hw := regmap_update_bits p.hw .regmap COMBTXPHY_CON7 SW_TX_MODE_MASK (SW_TX_MODE 3)
  let hw := regmap_write hw .regmap COMBTXPHY_CON10 (TX7_CKDRV_EN ||| TX2_CKDRV_EN)
  let hw := regmap_update_bits hw .regmap COMBTXPHY_CON0
    (SW_BUS_WIDTH_MASK ||| SW_GVI_LVDS_EN_MASK ||| SW_MIPI_DSI_EN_MASK)
    (SW_BUS_WIDTH_7BIT ||| SW_GVI_LVDS_EN)
  let hw :=
    if combtxphy.flags &&& k.COMBTXPHY_MODULEA_EN ≠ 0 then
      regmap_update_bits hw .regmap COMBTXPHY_CON0 SW_MODULEA_EN_MASK SW_MODULEA_EN
    else hw
  let hw :=
    if combtxphy.flags &&& k.COMBTXPHY_MODULEB_EN ≠ 0 then
      regmap_update_bits hw .regmap COMBTXPHY_CON0 SW_MODULEB_EN_MASK SW_MODULEB_EN
    else hw
  let hw := regmap_write hw .regmap COMBTXPHY_CON5 (con5_word combtxphy)
  let hw := regmap_update_bits hw .regmap COMBTXPHY_CON0 (SW_PD_PLL ||| SW_TX_PD_MASK) 0
  let ret := poll
  if ret < 0 then
    (ret, { p with hw := hw })
  else
    let hw := regmap_update_bits hw .regmap COMBTXPHY_CON0 SW_TX_IDLE_MASK 0
    (0, { p with hw := hw })

/-- The function `rk628_combtxphy_gvi_power_on`. -/
def rk628_combtxphy_gvi_power_on (p : phy) : Int × phy :=
  let combtxphy := p.drvdata
  let hw := regmap_write p.hw .regmap COMBTXPHY_CON5 (con5_word combtxphy)
  let hw := regmap_update_bits hw .regmap COMBTXPHY_CON0
    (SW_BUS_WIDTH_MASK ||| SW_GVI_LVDS_EN_MASK ||| SW_MIPI_DSI_EN_MASK |||
      SW_MODULEB_EN_MASK ||| SW_MODULEA_EN_MASK)
    (SW_BUS_WIDTH_10BIT ||| SW_GVI_LVDS_EN ||| SW_MODULEB_EN ||| SW_MODULEA_EN)
  let hw := regmap_update_bits hw .regmap COMBTXPHY_CON0 (SW_PD_PLL ||| SW_TX_PD_MASK) 0
  let hw := regmap_update_bits hw .regmap COMBTXPHY_CON0 SW_TX_IDLE_MASK 0
  (0, { p with hw := hw })

/-- The function `rk628_combtxphy_power_on`: returns the C return value and the state
after the call; `poll` is the outcome of the lock poll, used by the MIPI-DSI and LVDS
routines only. -/
def rk628_combtxphy_power_on (k : rk628_h) (poll : Int) (p : phy) : Int × phy :=
  let combtxphy := p.drvdata
  let hw := clk_prepare_enable p.hw
  let hw := reset_control_assert hw
  let hw := reset_control_deassert hw
  let hw := regmap_update_bits hw .regmap COMBTXPHY_CON0
    (SW_TX_IDLE_MASK ||| SW_TX_PD_MASK ||| SW_PD_PLL_MASK)
    (SW_TX_IDLE 0x3ff ||| SW_TX_PD 0x3ff ||| SW_PD_PLL)
  match combtxphy.mode with
  | .PHY_MODE_VIDEO_MIPI =>
    let hw := regmap_update_bits hw .grf k.GRF_POST_PROC_CON
      k.SW_TXPHY_REFCLK_SEL_MASK (k.SW_TXPHY_REFCLK_SEL 0)
    rk628_combtxphy_dsi_power_on k poll { p with hw := hw }
  | .PHY_MODE_VIDEO_LVDS =>
    let hw := regmap_update_bits hw .grf k.GRF_POST_PROC_CON
      k.SW_TXPHY_REFCLK_SEL_MASK (k.SW_TXPHY_REFCLK_SEL 1)
    rk628_combtxphy_lvds_power_on k poll { p with hw := hw }
  | .PHY_MODE_GVI =>
    let hw := regmap_update_bits hw .grf k.GRF_POST_PROC_CON
      k.SW_TXPHY_REFCLK_SEL_MASK (k.SW_TXPHY_REFCLK_SEL 0)
    rk628_combtxphy_gvi_power_on { p with hw := hw }
  | _ => (-EINVAL, { p with hw := hw })

/-- The function `rk628_combtxphy_power_off`: returns the C return value and the state
after the call. -/
def rk628_combtxphy_power_off (p : phy) : Int × phy :=
  let hw := regmap_update_bits p.hw .regmap COMBTXPHY_CON0
    (SW_TX_IDLE_MASK ||| SW_TX_PD_MASK ||| SW_PD_PLL_MASK |||
      SW_MODULEB_EN_MASK ||| SW_MODULEA_EN_MASK)
    (SW_TX_IDLE 0x3ff ||| SW_TX_PD 0x3ff ||| SW_PD_PLL)
  let hw := clk_disable_unprepare hw
  (0, { p with hw := hw })



/-! ## Arithmetic of the machine-integer helpers -/

theorem and_0xff (n : Nat) : n &&& 0xff = n % 256 :=
  Nat.and_pow_two_sub_one_eq_mod n 8

theorem and_0xfff (n : Nat) : n &&& 0xfff = n % 4096 :=
  Nat.and_pow_two_sub_one_eq_mod n 12

theorem shr8 (x : Int) : x >>> (8 : Nat) = x / 256 := by
  have h := Int.shiftRight_eq_div_pow x 8
  simpa using h

theorem shl10 (n : Nat) : n <<< 10 = n * 1024 := by
  rw [Nat.shiftLeft_eq]

theorem to_u32_cast (x : Int) : ((to_u32 x : Nat) : Int) = x % 4294967296 := by
  unfold to_u32
  omega

theorem to_u32_lt (x : Int) : to_u32 x < 4294967296 := by
  have h := to_u32_cast x
  omega

theorem u32_eq (x : Nat) (h : x < 4294967296) : u32 x = x := Nat.mod_eq_of_lt h

theorem u16_eq (x : Nat) (h : x < 65536) : u16 x = x := Nat.mod_eq_of_lt h

theorem u8_eq (x : Nat) (h : x < 256) : u8 x = x := Nat.mod_eq_of_lt h

theorem u32_sub_eq (a b : Nat) (h : b ≤ a) (ha : a < 4294967296) : u32_sub a b = a - b := by
  unfold u32_sub
  omega

theorem to_int_eq (x : Nat) (h : x < 2147483648) : to_int x = (x : Int) := by
  unfold to_int
  have h1 : x % 4294967296 = x := Nat.mod_eq_of_lt (by omega)
  rw [h1, if_pos h]

theorem to_u32_natCast (n : Nat) (h : n < 4294967296) : to_u32 (n : Int) = n := by
  unfold to_u32
  omega

theorem shl8_or (a f : Nat) (hf : f < 256) : a <<< 8 ||| f = 256 * a + f := by
  rw [Nat.shiftLeft_eq, Nat.mul_comm]
  exact (Nat.mul_add_lt_is_or (show f < 2 ^ 8 by omega) a).symm

theorem trunc_frac_div_eq (fvco : Nat) : trunc_frac_div fvco = fvco % 192 * 1024 / 192 := by
  unfold trunc_frac_div
  simp only [shl10]
  split_ifs <;> omega

theorem neg_EINVAL_ne_zero : -EINVAL ≠ 0 := by decide

theorem to_u32_of_int (x : Int) (h1 : INT_MIN ≤ x) (h2 : x ≤ INT_MAX) :
    (0 ≤ x ∧ ((to_u32 x : Nat) : Int) = x) ∨ (x < 0 ∧ ((to_u32 x : Nat) : Int) = x + 4294967296) := by
  unfold INT_MIN at h1
  unfold INT_MAX at h2
  rw [to_u32_cast]
  rcases Int.lt_or_le x 0 with hneg | hpos
  · right
    refine ⟨hneg, ?_⟩
    rw [← Int.add_emod_self, Int.emod_eq_of_lt (by omega) (by omega)]
  · left
    exact ⟨hpos, Int.emod_eq_of_lt hpos (by omega)⟩

/-! ## Bit fields under `update_bits` -/

/-- Reading, after an update, bits that all lie inside the updated mask gives the bits
of the written value. -/
theorem update_bits_and_inside (a m v k : Nat) (hk : k &&& m = k)
    (hm : m &&& 0xffffffff = m) : update_bits a m v &&& k = v &&& k := by
  unfold update_bits
  apply Nat.eq_of_testBit_eq
  intro i
  have h1 := congrArg (fun x => x.testBit i) hk
  have h2 := congrArg (fun x => x.testBit i) hm
  simp only [Nat.testBit_and, Nat.testBit_or, Nat.testBit_xor] at h1 h2 ⊢
  generalize a.testBit i = A at *
  generalize m.testBit i = M at *
  generalize v.testBit i = V at *
  generalize k.testBit i = K at *
  generalize (4294967295 : Nat).testBit i = F at *
  revert h1 h2
  cases A <;> cases M <;> cases V <;> cases K <;> cases F <;> decide

/-- Reading, after an update, bits of the 32-bit word that all lie outside the updated
mask gives the bits the register had before. -/
theorem update_bits_and_outside (a m v k : Nat) (hk : k &&& m = 0)
    (hf : k &&& 0xffffffff = k) : update_bits a m v &&& k = a &&& k := by
  unfold update_bits
  apply Nat.eq_of_testBit_eq
  intro i
  have h1 := congrArg (fun x => x.testBit i) hk
  have h2 := congrArg (fun x => x.testBit i) hf
  simp only [Nat.testBit_and, Nat.testBit_or, Nat.testBit_xor, Nat.zero_testBit] at h1 h2 ⊢
  generalize a.testBit i = A at *
  generalize m.testBit i = M at *
  generalize v.testBit i = V at *
  generalize k.testBit i = K at *
  generalize (4294967295 : Nat).testBit i = F at *
  revert h1 h2
  cases A <;> cases M <;> cases V <;> cases K <;> cases F <;> decide

/-- Updating twice with the same mask and value is updating once. -/
theorem update_bits_idem (a m v : Nat) :
    update_bits (update_bits a m v) m v = update_bits a m v := by
  unfold update_bits
  apply Nat.eq_of_testBit_eq
  intro i
  simp only [Nat.testBit_and, Nat.testBit_or, Nat.testBit_xor]
  generalize a.testBit i = A at *
  generalize m.testBit i = M at *
  generalize v.testBit i = V at *
  generalize (4294967295 : Nat).testBit i = F at *
  cases A <;> cases M <;> cases V <;> cases F <;> decide

/-- The value of a field read by shifting, from its value read by masking. -/
theorem field_of_and (x m c s : Nat) (h : x &&& m = c) : x >>> s &&& m >>> s = c >>> s := by
  subst h
  apply Nat.eq_of_testBit_eq
  intro i
  simp only [Nat.testBit_and, Nat.testBit_shiftRight]

/-- The registers of the PHY block after `rk628_combtxphy_power_off`. -/
theorem power_off_eq (p : phy) :
    rk628_combtxphy_power_off p =
      (0, { p with hw :=
        { p.hw with
          regmap := fun r =>
            if r = COMBTXPHY_CON0 then
              update_bits (p.hw.regmap COMBTXPHY_CON0)
                (SW_TX_IDLE_MASK ||| SW_TX_PD_MASK ||| SW_PD_PLL_MASK |||
                  SW_MODULEB_EN_MASK ||| SW_MODULEA_EN_MASK)
                (SW_TX_IDLE 0x3ff ||| SW_TX_PD 0x3ff ||| SW_PD_PLL)
            else p.hw.regmap r
          pclk_enabled := false } }) := rfl

/-! ## Reading registers after the operations of the register channel -/

theorem update_bits_regmap_same (hw : hw_state) (reg m v : Nat) :
    (regmap_update_bits hw .regmap reg m v).regmap reg = update_bits (hw.regmap reg) m v := by
  simp only [regmap_update_bits, if_true]

theorem update_bits_regmap_other (hw : hw_state) (reg m v r : Nat) (h : r ≠ reg) :
    (regmap_update_bits hw .regmap reg m v).regmap r = hw.regmap r := by
  simp only [regmap_update_bits, if_neg h]

theorem update_bits_grf_regmap (hw : hw_state) (reg m v : Nat) :
    (regmap_update_bits hw .grf reg m v).regmap = hw.regmap := rfl

theorem update_bits_regmap_grf (hw : hw_state) (reg m v : Nat) :
    (regmap_update_bits hw .regmap reg m v).grf = hw.grf := rfl

theorem write_regmap_same (hw : hw_state) (reg v : Nat) :
    (regmap_write hw .regmap reg v).regmap reg = u32 v := by
  simp only [regmap_write, if_true]

theorem write_regmap_other (hw : hw_state) (reg v r : Nat) (h : r ≠ reg) :
    (regmap_write hw .regmap reg v).regmap r = hw.regmap r := by
  simp only [regmap_write, if_neg h]

theorem write_regmap_grf (hw : hw_state) (reg v : Nat) :
    (regmap_write hw .regmap reg v).grf = hw.grf := rfl

theorem clk_prepare_enable_regmap (hw : hw_state) :
    (clk_prepare_enable hw).regmap = hw.regmap := rfl

theorem reset_control_assert_regmap (hw : hw_state) :
    (reset_control_assert hw).regmap = hw.regmap := rfl

theorem reset_control_deassert_regmap (hw : hw_state) :
    (reset_control_deassert hw).regmap = hw.regmap := rfl

/-- The difference of two `unsigned int` values, reduced, is `u32_sub`. -/
theorem to_u32_sub (a b : Nat) : to_u32 (Int.ofNat a - Int.ofNat b) = u32_sub a b := by
  have h := to_u32_cast (Int.ofNat a - Int.ofNat b)
  simp only [Int.ofNat_eq_coe] at h ⊢
  unfold u32_sub
  omega

/-- The predecessor of an `unsigned int` value, reduced, is `u32_sub` by one. -/
theorem to_u32_pred (a : Nat) : to_u32 (Int.ofNat a - 1) = u32_sub a 1 :=
  to_u32_sub a 1

/-- The traced function computes what `rk628_combtxphy_set_mode` computes. -/
theorem set_mode_traced_fst (p : phy) (mode : phy_mode) :
    (rk628_combtxphy_set_mode_traced p mode).1 = rk628_combtxphy_set_mode p mode := by
  cases mode with
  | PHY_MODE_INVALID => rfl
  | PHY_MODE_VIDEO_MIPI =>
    unfold rk628_combtxphy_set_mode_traced rk628_combtxphy_set_mode
    simp only [to_u32_sub, to_u32_pred, DIV_ROUND_UP]
    split_ifs <;> rfl
  | PHY_MODE_VIDEO_LVDS => rfl
  | PHY_MODE_GVI =>
    unfold rk628_combtxphy_set_mode_traced rk628_combtxphy_set_mode
    simp only [to_u32_sub, to_u32_pred, DIV_ROUND_UP]
    split_ifs <;> rfl
  | PHY_MODE_OTHER tag => rfl

/-! ## Closed forms of the three branches of `rk628_combtxphy_set_mode` -/

/-- MIPI-DSI, rejected: the requested rate rounds down to a multiple of 24 outside
`[80,1500]`; the call returns `-EINVAL` and the state is the one before the call. -/
theorem set_mode_mipi_reject (p : phy) (r : Nat) (hr : to_u32 (p.bus_width >>> (8 : Nat)) = r)
    (h : r < 96 ∨ 1511 < r) :
    rk628_combtxphy_set_mode p .PHY_MODE_VIDEO_MIPI = (-EINVAL, p) := by
  have hlt : r < 4294967296 := hr ▸ to_u32_lt _
  unfold rk628_combtxphy_set_mode
  simp only [phy_get_bus_width, hr]
  rw [u32_eq _ (by omega), if_pos (by omega)]

/-- MIPI-DSI, accepted: the result in closed form, `r` being the requested rate. -/
theorem set_mode_mipi_accept (p : phy) (r : Nat) (hr : to_u32 (p.bus_width >>> (8 : Nat)) = r)
    (h1 : 96 ≤ r) (h2 : r ≤ 1511) :
    rk628_combtxphy_set_mode p .PHY_MODE_VIDEO_MIPI =
      (0, { bus_width := ((24 * (r / 24) : Nat) : Int)
            drvdata :=
              { mode := .PHY_MODE_VIDEO_MIPI
                flags := to_u32 p.bus_width &&& 0xff
                ref_div := 1
                fb_div := 24 * (r / 24) * 2 *
                  (if 24 * (r / 24) < 375 then 4 else if 24 * (r / 24) < 750 then 2 else 1) / 192
                frac_div := (24 * (r / 24) * 2 *
                  (if 24 * (r / 24) < 375 then 4 else if 24 * (r / 24) < 750 then 2 else 1) % 192)
                    * 1024 / 192
                rate_div := if 24 * (r / 24) < 375 then 4 else if 24 * (r / 24) < 750 then 2 else 1 }
            hw := p.hw }) := by
  unfold rk628_combtxphy_set_mode
  simp only [phy_get_bus_width, phy_set_bus_width, hr]
  obtain ⟨f, hf⟩ : ∃ f, 24 * (r / 24) = f := ⟨_, rfl⟩
  have hf1 : 96 ≤ f := by omega
  have hf2 : f ≤ 1488 := by omega
  rw [hf, u32_eq f (by omega), if_neg (by omega)]
  by_cases c1 : f < 375
  · simp only [if_pos c1]
    simp (disch := omega) only [u32_eq, u8_eq, u16_eq, shl10, u32_sub_eq]
    split_ifs with c <;>
    · simp (disch := omega) only [u32_eq, u8_eq, u16_eq, DIV_ROUND_UP, u32_sub_eq, to_int_eq]
      simp only [Prod.mk.injEq, phy.mk.injEq, rk628_combtxphy.mk.injEq, true_and, and_true]
      refine ⟨?_, ?_, ?_⟩ <;> omega
  · by_cases c2 : f < 750
    · simp only [if_neg c1, if_pos c2]
      simp (disch := omega) only [u32_eq, u8_eq, u16_eq, shl10, u32_sub_eq]
      split_ifs with c <;>
      · simp (disch := omega) only [u32_eq, u8_eq, u16_eq, DIV_ROUND_UP, u32_sub_eq, to_int_eq]
        simp only [Prod.mk.injEq, phy.mk.injEq, rk628_combtxphy.mk.injEq, true_and, and_true]
        refine ⟨?_, ?_, ?_⟩ <;> omega
    · simp only [if_neg c1, if_neg c2]
      simp (disch := omega) only [u32_eq, u8_eq, u16_eq, shl10, u32_sub_eq]
      split_ifs with c <;>
      · simp (disch := omega) only [u32_eq, u8_eq, u16_eq, DIV_ROUND_UP, u32_sub_eq, to_int_eq]
        simp only [Prod.mk.injEq, phy.mk.injEq, rk628_combtxphy.mk.injEq, true_and, and_true]
        refine ⟨?_, ?_, ?_⟩ <;> omega

/-- LVDS: the result in closed form; the call always succeeds. -/
theorem set_mode_lvds (p : phy) :
    rk628_combtxphy_set_mode p .PHY_MODE_VIDEO_LVDS =
      (0, { bus_width := p.bus_width
            drvdata :=
              { mode := .PHY_MODE_VIDEO_LVDS
                flags := to_u32 p.bus_width &&& 0xff
                ref_div := 1
                fb_div := 14
                frac_div := 0
                rate_div :=
                  if to_u32 ((p.bus_width >>> (8 : Nat)) * 7) < 500 then 4
                  else if to_u32 ((p.bus_width >>> (8 : Nat)) * 7) < 1000 then 2 else 1 }
            hw := p.hw }) := rfl

/-- GVI, rejected: the rate field is outside `[500,4000]`; the call returns `-EINVAL`
and the state is the one before the call. -/
theorem set_mode_gvi_reject (p : phy) (fhsc : Nat) (hr : to_u32 p.bus_width &&& 0xfff = fhsc)
    (h : fhsc < 500 ∨ 4000 < fhsc) :
    rk628_combtxphy_set_mode p .PHY_MODE_GVI = (-EINVAL, p) := by
  unfold rk628_combtxphy_set_mode
  simp only [phy_get_bus_width, hr]
  rw [if_pos (by omega)]

/-- GVI, accepted: the result in closed form, `fhsc` being the rate field. -/
theorem set_mode_gvi_accept (p : phy) (fhsc : Nat) (hr : to_u32 p.bus_width &&& 0xfff = fhsc)
    (h1 : 500 ≤ fhsc) (h2 : fhsc ≤ 4000) :
    rk628_combtxphy_set_mode p .PHY_MODE_GVI =
      (0, { bus_width :=
              ((24 * (1024 * (fhsc * (if fhsc < 1000 then 4 else if fhsc < 2000 then 2 else 1) / 192)
                + (fhsc * (if fhsc < 1000 then 4 else if fhsc < 2000 then 2 else 1) % 192)
                    * 1024 / 192) * 8 / 1024
                / (if fhsc < 1000 then 4 else if fhsc < 2000 then 2 else 1) : Nat) : Int)
            drvdata :=
              { mode := .PHY_MODE_GVI
                flags := p.drvdata.flags
                ref_div := 1
                fb_div := fhsc * (if fhsc < 1000 then 4 else if fhsc < 2000 then 2 else 1) / 192
                frac_div := (fhsc * (if fhsc < 1000 then 4 else if fhsc < 2000 then 2 else 1) % 192)
                    * 1024 / 192
                rate_div := if fhsc < 1000 then 4 else if fhsc < 2000 then 2 else 1 }
            hw := p.hw }) := by
  unfold rk628_combtxphy_set_mode
  simp only [phy_get_bus_width, phy_set_bus_width, hr]
  rw [if_neg (by omega)]
  by_cases c1 : fhsc < 1000
  · simp only [if_pos c1]
    simp (disch := omega) only [u32_eq, u8_eq, u16_eq, shl10, u32_sub_eq]
    split_ifs with c <;>
    · simp (disch := omega) only [u32_eq, u8_eq, u16_eq, u32_sub_eq, to_int_eq]
      simp only [Prod.mk.injEq, phy.mk.injEq, rk628_combtxphy.mk.injEq, true_and, and_true]
      refine ⟨?_, ?_, ?_⟩ <;> omega
  · by_cases c2 : fhsc < 2000
    · simp only [if_neg c1, if_pos c2]
      simp (disch := omega) only [u32_eq, u8_eq, u16_eq, shl10, u32_sub_eq]
      split_ifs with c <;>
      · simp (disch := omega) only [u32_eq, u8_eq, u16_eq, u32_sub_eq, to_int_eq]
        simp only [Prod.mk.injEq, phy.mk.injEq, rk628_combtxphy.mk.injEq, true_and, and_true]
        refine ⟨?_, ?_, ?_⟩ <;> omega
    · simp only [if_neg c1, if_neg c2]
      simp (disch := omega) only [u32_eq, u8_eq, u16_eq, shl10, u32_sub_eq]
      split_ifs with c <;>
      · simp (disch := omega) only [u32_eq, u8_eq, u16_eq, u32_sub_eq, to_int_eq]
        simp only [Prod.mk.injEq, phy.mk.injEq, rk628_combtxphy.mk.injEq, true_and, and_true]
        refine ⟨?_, ?_, ?_⟩ <;> omega

/-! ## The arithmetic trace -/

/-- The trace of an accepted MIPI-DSI call: every entry fits its width. -/
theorem set_mode_traced_fits_mipi (p : phy) (r : Nat)
    (hr : to_u32 (p.bus_width >>> (8 : Nat)) = r) (h1 : 96 ≤ r) (h2 : r ≤ 1511)
    (hc : ((r : Nat) : Int) = p.bus_width >>> (8 : Nat)) :
    ∀ e ∈ (rk628_combtxphy_set_mode_traced p .PHY_MODE_VIDEO_MIPI).2,
      0 ≤ e.1 ∧ e.1 < 2 ^ e.2 := by
  unfold rk628_combtxphy_set_mode_traced
  simp only [phy_get_bus_width, phy_set_bus_width, to_u32_sub, to_u32_pred, hr]
  obtain ⟨f, hf⟩ : ∃ f, 24 * (r / 24) = f := ⟨_, rfl⟩
  rw [hf, u32_eq f (by omega), if_neg (by omega)]
  by_cases c1 : f < 375
  · simp only [if_pos c1]
    simp (disch := omega) only [u32_eq, u8_eq, u16_eq, shl10, u32_sub_eq]
    split_ifs with c <;>
    · simp (disch := omega) only [u32_eq, u8_eq, u16_eq, u32_sub_eq]
      simp only [List.cons_append, List.nil_append, List.append_nil, List.forall_mem_cons,
        List.forall_mem_singleton, Int.ofNat_eq_coe, and_0xff,
        List.not_mem_nil, false_implies, implies_true, and_true]
      omega
  · by_cases c2 : f < 750
    · simp only [if_neg c1, if_pos c2]
      simp (disch := omega) only [u32_eq, u8_eq, u16_eq, shl10, u32_sub_eq]
      split_ifs with c <;>
      · simp (disch := omega) only [u32_eq, u8_eq, u16_eq, u32_sub_eq]
        simp only [List.cons_append, List.nil_append, List.append_nil, List.forall_mem_cons,
          List.forall_mem_singleton, Int.ofNat_eq_coe, and_0xff,
          List.not_mem_nil, false_implies, implies_true, and_true]
        omega
    · simp only [if_neg c1, if_neg c2]
      simp (disch := omega) only [u32_eq, u8_eq, u16_eq, shl10, u32_sub_eq]
      split_ifs with c <;>
      · simp (disch := omega) only [u32_eq, u8_eq, u16_eq, u32_sub_eq]
        simp only [List.cons_append, List.nil_append, List.append_nil, List.forall_mem_cons,
          List.forall_mem_singleton, Int.ofNat_eq_coe, and_0xff,
          List.not_mem_nil, false_implies, implies_true, and_true]
        omega

/-- The trace of an accepted GVI call: every entry fits its width. -/
theorem set_mode_traced_fits_gvi (p : phy) (f : Nat)
    (hf : to_u32 p.bus_width &&& 0xfff = f) (h1 : 500 ≤ f) (h2 : f ≤ 4000) :
    ∀ e ∈ (rk628_combtxphy_set_mode_traced p .PHY_MODE_GVI).2,
      0 ≤ e.1 ∧ e.1 < 2 ^ e.2 := by
  unfold rk628_combtxphy_set_mode_traced
  simp only [phy_get_bus_width, phy_set_bus_width, to_u32_sub, to_u32_pred, hf]
  rw [if_neg (by omega)]
  by_cases c1 : f < 1000
  · simp only [if_pos c1]
    simp (disch := omega) only [u32_eq, u8_eq, u16_eq, shl10, u32_sub_eq]
    split_ifs with c <;>
    · simp (disch := omega) only [u32_eq, u8_eq, u16_eq, u32_sub_eq]
      simp only [List.cons_append, List.nil_append, List.append_nil, List.forall_mem_cons,
        List.forall_mem_singleton, Int.ofNat_eq_coe, and_0xff,
        List.not_mem_nil, false_implies, implies_true, and_true]
      omega
  · by_cases c2 : f < 2000
    · simp only [if_neg c1, if_pos c2]
      simp (disch := omega) only [u32_eq, u8_eq, u16_eq, shl10, u32_sub_eq]
      split_ifs with c <;>
      · simp (disch := omega) only [u32_eq, u8_eq, u16_eq, u32_sub_eq]
        simp only [List.cons_append, List.nil_append, List.append_nil, List.forall_mem_cons,
          List.forall_mem_singleton, Int.ofNat_eq_coe, and_0xff,
          List.not_mem_nil, false_implies, implies_true, and_true]
        omega
    · simp only [if_neg c1, if_neg c2]
      simp (disch := omega) only [u32_eq, u8_eq, u16_eq, shl10, u32_sub_eq]
      split_ifs with c <;>
      · simp (disch := omega) only [u32_eq, u8_eq, u16_eq, u32_sub_eq]
        simp only [List.cons_append, List.nil_append, List.append_nil, List.forall_mem_cons,
          List.forall_mem_singleton, Int.ofNat_eq_coe, and_0xff,
          List.not_mem_nil, false_implies, implies_true, and_true]
        omega

/-- On a successful call with a C `int` parameter, non-negative when the mode is LVDS,
no entry of the arithmetic trace of `rk628_combtxphy_set_mode` wraps or is truncated:
each is non-negative and below `2^width`. -/
theorem set_mode_traced_fits (p : phy) (mode : phy_mode)
    (hmin : INT_MIN ≤ p.bus_width) (hmax : p.bus_width ≤ INT_MAX)
    (h : (rk628_combtxphy_set_mode p mode).1 = 0)
    (hl : mode = .PHY_MODE_VIDEO_LVDS → 0 ≤ p.bus_width) :
    ∀ e ∈ (rk628_combtxphy_set_mode_traced p mode).2, 0 ≤ e.1 ∧ e.1 < 2 ^ e.2 := by
  cases mode with
  | PHY_MODE_INVALID => exact absurd h neg_EINVAL_ne_zero
  | PHY_MODE_VIDEO_MIPI =>
    have hs : INT_MIN ≤ p.bus_width >>> (8 : Nat) ∧ p.bus_width >>> (8 : Nat) ≤ INT_MAX := by
      rw [shr8]; unfold INT_MIN INT_MAX at *; omega
    have hc := to_u32_of_int _ hs.1 hs.2
    unfold INT_MIN INT_MAX at hs
    by_cases hrej : to_u32 (p.bus_width >>> (8 : Nat)) < 96 ∨
        1511 < to_u32 (p.bus_width >>> (8 : Nat))
    · rw [set_mode_mipi_reject p _ rfl hrej] at h
      exact absurd h neg_EINVAL_ne_zero
    · exact set_mode_traced_fits_mipi p _ rfl (by omega) (by omega) (by omega)
  | PHY_MODE_VIDEO_LVDS =>
    have h0 := hl rfl
    unfold INT_MAX at hmax
    unfold rk628_combtxphy_set_mode_traced
    simp only [phy_get_bus_width, List.forall_mem_cons, List.forall_mem_singleton,
      Int.ofNat_eq_coe, and_0xff, shr8, List.not_mem_nil, false_implies, implies_true,
      and_true]
    omega
  | PHY_MODE_GVI =>
    by_cases hrej : to_u32 p.bus_width &&& 0xfff < 500 ∨ 4000 < to_u32 p.bus_width &&& 0xfff
    · rw [set_mode_gvi_reject p _ rfl hrej] at h
      exact absurd h neg_EINVAL_ne_zero
    · exact set_mode_traced_fits_gvi p _ rfl (by omega) (by omega)
  | PHY_MODE_OTHER tag => exact absurd h neg_EINVAL_ne_zero

/-! ## The divider word of `COMBTXPHY_CON5` -/

/-- After a successful `set_mode` the stored mode is the requested one, one of the
three supported modes, and the dividers are within the ranges of their fields. -/
theorem set_mode_success_bounds (p : phy) (mode : phy_mode)
    (h : (rk628_combtxphy_set_mode p mode).1 = 0) :
    (rk628_combtxphy_set_mode p mode).2.drvdata.mode = mode ∧
    (mode = .PHY_MODE_VIDEO_MIPI ∨ mode = .PHY_MODE_VIDEO_LVDS ∨ mode = .PHY_MODE_GVI) ∧
    (rk628_combtxphy_set_mode p mode).2.drvdata.ref_div = 1 ∧
    (rk628_combtxphy_set_mode p mode).2.drvdata.fb_div ≤ 20 ∧
    (rk628_combtxphy_set_mode p mode).2.drvdata.frac_div ≤ 1023 ∧
    ((rk628_combtxphy_set_mode p mode).2.drvdata.rate_div = 1 ∨
      (rk628_combtxphy_set_mode p mode).2.drvdata.rate_div = 2 ∨
      (rk628_combtxphy_set_mode p mode).2.drvdata.rate_div = 4) := by
  cases mode with
  | PHY_MODE_INVALID => exact absurd h neg_EINVAL_ne_zero
  | PHY_MODE_VIDEO_MIPI =>
    by_cases hr : to_u32 (p.bus_width >>> (8 : Nat)) < 96 ∨
        1511 < to_u32 (p.bus_width >>> (8 : Nat))
    · rw [set_mode_mipi_reject p _ rfl hr] at h
      exact absurd h neg_EINVAL_ne_zero
    · rw [set_mode_mipi_accept p _ rfl (by omega) (by omega)]
      dsimp only
      refine ⟨rfl, Or.inl rfl, rfl, ?_, ?_, ?_⟩
      · split_ifs <;> omega
      · omega
      · split_ifs <;> simp
  | PHY_MODE_VIDEO_LVDS =>
    rw [set_mode_lvds]
    dsimp only
    refine ⟨rfl, Or.inr (Or.inl rfl), rfl, by omega, by omega, ?_⟩
    split_ifs <;> simp
  | PHY_MODE_GVI =>
    by_cases hr : to_u32 p.bus_width &&& 0xfff < 500 ∨ 4000 < to_u32 p.bus_width &&& 0xfff
    · rw [set_mode_gvi_reject p _ rfl hr] at h
      exact absurd h neg_EINVAL_ne_zero
    · rw [set_mode_gvi_accept p _ rfl (by omega) (by omega)]
      dsimp only
      refine ⟨rfl, Or.inr (Or.inr rfl), rfl, ?_, ?_, ?_⟩
      · split_ifs <;> omega
      · omega
      · split_ifs <;> simp
  | PHY_MODE_OTHER tag => exact absurd h neg_EINVAL_ne_zero

theorem and_0x1f (n : Nat) : n &&& 0x1f = n % 32 :=
  Nat.and_pow_two_sub_one_eq_mod n 5

theorem and_0x7 (n : Nat) : n &&& 0x7 = n % 8 :=
  Nat.and_pow_two_sub_one_eq_mod n 3

theorem and_0x3ff (n : Nat) : n &&& 0x3ff = n % 1024 :=
  Nat.and_pow_two_sub_one_eq_mod n 10

/-- A fractional divider below 1024 is not touched by the mask of its field. -/
theorem SW_PLL_FRAC_DIV_eq (x : Nat) (h : x < 1024) : SW_PLL_FRAC_DIV x = x := by
  have hm : GENMASK 9 0 = 0x3ff := by decide
  unfold SW_PLL_FRAC_DIV UPDATE
  rw [hm, Nat.shiftLeft_zero, u32_eq x (by omega), and_0x3ff]
  omega

/-- A feedback divider below 32 is not touched by the mask of its field. -/
theorem SW_PLL_FB_DIV_eq (x : Nat) (h : x < 32) : SW_PLL_FB_DIV x = x * 1024 := by
  interval_cases x <;> decide

/-- A rate code below 8 is not touched by the mask of its field. -/
theorem SW_RATE_eq (x : Nat) (h : x < 8) : SW_RATE x = x * 16777216 := by
  interval_cases x <;> decide

/-- The divider word as a sum of its fields: nothing is masked off, no field overlaps
another. -/
theorem con5_word_eq (c : rk628_combtxphy) (h1 : c.ref_div = 1) (h2 : c.fb_div < 32)
    (h3 : c.frac_div < 1024) (h4 : c.rate_div / 2 < 8) :
    con5_word c = c.rate_div / 2 * 16777216 + c.fb_div * 1024 + c.frac_div := by
  have hr : SW_REF_DIV (to_u32 ((1 : Nat) - 1 : Int)) = 0 := by decide
  unfold con5_word
  rw [h1, hr, SW_PLL_FB_DIV_eq _ h2, SW_PLL_FRAC_DIV_eq _ h3, SW_RATE_eq _ h4, Nat.zero_or]
  have e1 : c.fb_div * 1024 ||| c.frac_div = 2 ^ 10 * c.fb_div + c.frac_div := by
    rw [Nat.mul_comm]
    exact (Nat.mul_add_lt_is_or (show c.frac_div < 2 ^ 10 by omega) c.fb_div).symm
  have e2 : 2 ^ 10 * c.fb_div + c.frac_div ||| c.rate_div / 2 * 16777216 =
      2 ^ 24 * (c.rate_div / 2) + (2 ^ 10 * c.fb_div + c.frac_div) := by
    rw [Nat.or_comm, Nat.mul_comm (c.rate_div / 2)]
    exact (Nat.mul_add_lt_is_or
      (show 2 ^ 10 * c.fb_div + c.frac_div < 2 ^ 24 by omega) (c.rate_div / 2)).symm
  rw [e1, e2]
  omega

/-- In each supported mode `power_on` writes the divider word to `COMBTXPHY_CON5`, and
no later step of the sequence touches that register. -/
theorem power_on_con5 (k : rk628_h) (poll : Int) (q : phy)
    (hm : q.drvdata.mode = .PHY_MODE_VIDEO_MIPI ∨ q.drvdata.mode = .PHY_MODE_VIDEO_LVDS ∨
      q.drvdata.mode = .PHY_MODE_GVI) :
    (rk628_combtxphy_power_on k poll q).2.hw.regmap COMBTXPHY_CON5 =
      u32 (con5_word q.drvdata) := by
  rcases hm with hm | hm | hm
  · unfold rk628_combtxphy_power_on
    simp only [hm]
    unfold rk628_combtxphy_dsi_power_on
    dsimp only
    split_ifs <;>
    simp (disch := decide) only [update_bits_regmap_other, write_regmap_same]
  · unfold rk628_combtxphy_power_on
    simp only [hm]
    unfold rk628_combtxphy_lvds_power_on
    dsimp only
    split_ifs <;>
    simp (disch := decide) only [update_bits_regmap_other, write_regmap_same]
  · unfold rk628_combtxphy_power_on
    simp only [hm]
    unfold rk628_combtxphy_gvi_power_on
    dsimp only
    simp (disch := decide) only [update_bits_regmap_other, write_regmap_same]

/-! ## Range check of the MIPI-DSI path -/

/-- C1 (as amended): in MIPI-DSI mode `set_mode` returns `-EINVAL` exactly when the
requested rate (the bus-width parameter shifted right by 8 bits) rounded down to a
multiple of 24 MHz is below 80 or above 1500, that is exactly when the requested rate
is below 96 or above 1511; every requested rate in `[96,1511]` is accepted. -/
theorem set_mode_mipi_einval_iff (p : phy)
    (hmin : INT_MIN ≤ p.bus_width) (hmax : p.bus_width ≤ INT_MAX) :
    ((rk628_combtxphy_set_mode p .PHY_MODE_VIDEO_MIPI).1 = -EINVAL ↔
      (24 * (p.bus_width >>> (8 : Nat) / 24) < 80 ∨
        1500 < 24 * (p.bus_width >>> (8 : Nat) / 24))) ∧
    ((rk628_combtxphy_set_mode p .PHY_MODE_VIDEO_MIPI).1 = -EINVAL ↔
      (p.bus_width >>> (8 : Nat) < 96 ∨ 1511 < p.bus_width >>> (8 : Nat))) ∧
    ((96 ≤ p.bus_width >>> (8 : Nat) ∧ p.bus_width >>> (8 : Nat) ≤ 1511) →
      (rk628_combtxphy_set_mode p .PHY_MODE_VIDEO_MIPI).1 = 0) := by
  have hs : INT_MIN ≤ p.bus_width >>> (8 : Nat) ∧ p.bus_width >>> (8 : Nat) ≤ INT_MAX := by
    rw [shr8]; unfold INT_MIN INT_MAX at *; omega
  have hc := to_u32_of_int _ hs.1 hs.2
  unfold INT_MIN INT_MAX at hs
  by_cases h : to_u32 (p.bus_width >>> (8 : Nat)) < 96 ∨ 1511 < to_u32 (p.bus_width >>> (8 : Nat))
  · rw [set_mode_mipi_reject p _ rfl h]
    simp only [EINVAL, true_iff]
    refine ⟨?_, ?_, ?_⟩ <;> omega
  · rw [set_mode_mipi_accept p _ rfl (by omega) (by omega)]
    simp only [EINVAL]
    refine ⟨?_, ?_, fun _ => trivial⟩ <;> omega

/-- Witness for C1: a request of 500 MHz with both module flags is accepted. -/
theorem set_mode_mipi_einval_iff_witness :
    INT_MIN ≤ (phy0 128003).bus_width ∧ (phy0 128003).bus_width ≤ INT_MAX ∧
      (rk628_combtxphy_set_mode (phy0 128003) .PHY_MODE_VIDEO_MIPI).1 = 0 :=
  ⟨by decide, by decide,
    (set_mode_mipi_einval_iff (phy0 128003) (by decide) (by decide)).2.2 ⟨by decide, by decide⟩⟩

/-- C1, as stated, fails: the requested rate 80 MHz lies in `[80,1500]` and is rejected,
and the requested rate 1501 MHz lies above 1500 and is accepted. -/
theorem set_mode_mipi_range_counterexample :
    ((80 * 256 : Int) >>> (8 : Nat) = 80 ∧
      (rk628_combtxphy_set_mode (phy0 (80 * 256)) .PHY_MODE_VIDEO_MIPI).1 = -EINVAL) ∧
    ((1501 * 256 : Int) >>> (8 : Nat) = 1501 ∧
      (rk628_combtxphy_set_mode (phy0 (1501 * 256)) .PHY_MODE_VIDEO_MIPI).1 = 0) := by
  decide

/-! ## Error returns and the invariants of a successful call -/

/-- C2: whenever `set_mode` returns an error (any nonzero value), the state after the
call is the state before the call: every field of the configuration (mode, flags,
`ref_div`, `fb_div`, `frac_div`, `rate_div`), the bus-width parameter and every
register (the whole hardware state) are unchanged. -/
theorem set_mode_error_state_unchanged (p : phy) (mode : phy_mode)
    (h : (rk628_combtxphy_set_mode p mode).1 ≠ 0) :
    (rk628_combtxphy_set_mode p mode).2 = p := by
  cases mode with
  | PHY_MODE_INVALID => rfl
  | PHY_MODE_VIDEO_MIPI =>
    by_cases hr : to_u32 (p.bus_width >>> (8 : Nat)) < 96 ∨
        1511 < to_u32 (p.bus_width >>> (8 : Nat))
    · rw [set_mode_mipi_reject p _ rfl hr]
    · rw [set_mode_mipi_accept p _ rfl (by omega) (by omega)] at h
      exact absurd rfl h
  | PHY_MODE_VIDEO_LVDS =>
    rw [set_mode_lvds] at h
    exact absurd rfl h
  | PHY_MODE_GVI =>
    by_cases hr : to_u32 p.bus_width &&& 0xfff < 500 ∨ 4000 < to_u32 p.bus_width &&& 0xfff
    · rw [set_mode_gvi_reject p _ rfl hr]
    · rw [set_mode_gvi_accept p _ rfl (by omega) (by omega)] at h
      exact absurd rfl h
  | PHY_MODE_OTHER tag => rfl

/-- Witness for C2: a MIPI-DSI request of 0 MHz is rejected and leaves the state as it
was. -/
theorem set_mode_error_state_unchanged_witness :
    (rk628_combtxphy_set_mode (phy0 0) .PHY_MODE_VIDEO_MIPI).1 ≠ 0 ∧
      (rk628_combtxphy_set_mode (phy0 0) .PHY_MODE_VIDEO_MIPI).2 = phy0 0 :=
  ⟨by decide, set_mode_error_state_unchanged (phy0 0) .PHY_MODE_VIDEO_MIPI (by decide)⟩

/-- C3: after any `set_mode` call that succeeds (MIPI-DSI, LVDS or GVI), whatever the
prior configuration and the bus-width parameter, the stored `frac_div` is at most 1023,
`rate_div` is 1, 2 or 4, and `ref_div` is 1 (so at least 1). -/
theorem set_mode_success_invariants (p : phy) (mode : phy_mode)
    (h : (rk628_combtxphy_set_mode p mode).1 = 0) :
    (rk628_combtxphy_set_mode p mode).2.drvdata.frac_div ≤ 1023 ∧
    ((rk628_combtxphy_set_mode p mode).2.drvdata.rate_div = 1 ∨
      (rk628_combtxphy_set_mode p mode).2.drvdata.rate_div = 2 ∨
      (rk628_combtxphy_set_mode p mode).2.drvdata.rate_div = 4) ∧
    (rk628_combtxphy_set_mode p mode).2.drvdata.ref_div = 1 ∧
    1 ≤ (rk628_combtxphy_set_mode p mode).2.drvdata.ref_div := by
  cases mode with
  | PHY_MODE_INVALID => exact absurd h neg_EINVAL_ne_zero
  | PHY_MODE_VIDEO_MIPI =>
    by_cases hr : to_u32 (p.bus_width >>> (8 : Nat)) < 96 ∨
        1511 < to_u32 (p.bus_width >>> (8 : Nat))
    · rw [set_mode_mipi_reject p _ rfl hr] at h
      exact absurd h neg_EINVAL_ne_zero
    · rw [set_mode_mipi_accept p _ rfl (by omega) (by omega)]
      refine ⟨?_, ?_, rfl, Nat.le_refl 1⟩
      · show _ % 192 * 1024 / 192 ≤ 1023
        omega
      · show (if _ then 4 else if _ then 2 else 1) = 1 ∨ _
        split_ifs <;> simp
  | PHY_MODE_VIDEO_LVDS =>
    rw [set_mode_lvds]
    refine ⟨Nat.zero_le _, ?_, rfl, Nat.le_refl 1⟩
    show (if _ then 4 else if _ then 2 else 1) = 1 ∨ _
    split_ifs <;> simp
  | PHY_MODE_GVI =>
    by_cases hr : to_u32 p.bus_width &&& 0xfff < 500 ∨ 4000 < to_u32 p.bus_width &&& 0xfff
    · rw [set_mode_gvi_reject p _ rfl hr] at h
      exact absurd h neg_EINVAL_ne_zero
    · rw [set_mode_gvi_accept p _ rfl (by omega) (by omega)]
      refine ⟨?_, ?_, rfl, Nat.le_refl 1⟩
      · show _ % 192 * 1024 / 192 ≤ 1023
        omega
      · show (if _ then 4 else if _ then 2 else 1) = 1 ∨ _
        split_ifs <;> simp
  | PHY_MODE_OTHER tag => exact absurd h neg_EINVAL_ne_zero

/-- Witness for C3: a GVI request of 500 MHz succeeds. -/
theorem set_mode_success_invariants_witness :
    (rk628_combtxphy_set_mode (phy0 500) .PHY_MODE_GVI).1 = 0 ∧
    (rk628_combtxphy_set_mode (phy0 500) .PHY_MODE_GVI).2.drvdata.frac_div ≤ 1023 ∧
    ((rk628_combtxphy_set_mode (phy0 500) .PHY_MODE_GVI).2.drvdata.rate_div = 1 ∨
      (rk628_combtxphy_set_mode (phy0 500) .PHY_MODE_GVI).2.drvdata.rate_div = 2 ∨
      (rk628_combtxphy_set_mode (phy0 500) .PHY_MODE_GVI).2.drvdata.rate_div = 4) ∧
    (rk628_combtxphy_set_mode (phy0 500) .PHY_MODE_GVI).2.drvdata.ref_div = 1 ∧
    1 ≤ (rk628_combtxphy_set_mode (phy0 500) .PHY_MODE_GVI).2.drvdata.ref_div :=
  ⟨by decide, set_mode_success_invariants (phy0 500) .PHY_MODE_GVI (by decide)⟩

/-! ## The achievable MIPI-DSI rate -/

/-- C4 (as amended): for every MIPI-DSI requested rate `r` in `[96,1500]` MHz `set_mode`
succeeds and the achievable rate it writes back through the bus-width parameter is `r`
rounded down to a multiple of the 24 MHz reference: it never exceeds `r` and is at
most 23 MHz below it. -/
theorem set_mode_mipi_achievable (p : phy)
    (hmin : INT_MIN ≤ p.bus_width) (hmax : p.bus_width ≤ INT_MAX)
    (h1 : 96 ≤ p.bus_width >>> (8 : Nat)) (h2 : p.bus_width >>> (8 : Nat) ≤ 1500) :
    (rk628_combtxphy_set_mode p .PHY_MODE_VIDEO_MIPI).1 = 0 ∧
    (rk628_combtxphy_set_mode p .PHY_MODE_VIDEO_MIPI).2.bus_width =
      24 * (p.bus_width >>> (8 : Nat) / 24) ∧
    (rk628_combtxphy_set_mode p .PHY_MODE_VIDEO_MIPI).2.bus_width ≤ p.bus_width >>> (8 : Nat) ∧
    p.bus_width >>> (8 : Nat) - (rk628_combtxphy_set_mode p .PHY_MODE_VIDEO_MIPI).2.bus_width
      ≤ 23 := by
  have hs : INT_MIN ≤ p.bus_width >>> (8 : Nat) ∧ p.bus_width >>> (8 : Nat) ≤ INT_MAX := by
    rw [shr8]; unfold INT_MIN INT_MAX at *; omega
  have hc := to_u32_of_int _ hs.1 hs.2
  rw [set_mode_mipi_accept p _ rfl (by omega) (by omega)]
  refine ⟨rfl, ?_, ?_, ?_⟩
  · show ((24 * (_ / 24) : Nat) : Int) = _
    omega
  · show ((24 * (_ / 24) : Nat) : Int) ≤ _
    omega
  · show _ - ((24 * (_ / 24) : Nat) : Int) ≤ 23
    omega

/-- Witness for C4: a request of 500 MHz is accepted and 480 MHz is reported. -/
theorem set_mode_mipi_achievable_witness :
    (rk628_combtxphy_set_mode (phy0 128003) .PHY_MODE_VIDEO_MIPI).1 = 0 ∧
    (rk628_combtxphy_set_mode (phy0 128003) .PHY_MODE_VIDEO_MIPI).2.bus_width =
      24 * ((phy0 128003).bus_width >>> (8 : Nat) / 24) ∧
    (rk628_combtxphy_set_mode (phy0 128003) .PHY_MODE_VIDEO_MIPI).2.bus_width ≤
      (phy0 128003).bus_width >>> (8 : Nat) ∧
    (phy0 128003).bus_width >>> (8 : Nat) -
      (rk628_combtxphy_set_mode (phy0 128003) .PHY_MODE_VIDEO_MIPI).2.bus_width ≤ 23 :=
  set_mode_mipi_achievable (phy0 128003) (by decide) (by decide) (by decide) (by decide)

/-- C4, as stated, fails: the requested rate 80 MHz is rejected, and the requested rate
119 MHz is accepted with 96 MHz reported, 23 MHz away from the request. -/
theorem set_mode_mipi_achievable_counterexample :
    ((80 * 256 : Int) >>> (8 : Nat) = 80 ∧
      (rk628_combtxphy_set_mode (phy0 (80 * 256)) .PHY_MODE_VIDEO_MIPI).1 = -EINVAL) ∧
    ((119 * 256 : Int) >>> (8 : Nat) = 119 ∧
      (rk628_combtxphy_set_mode (phy0 (119 * 256)) .PHY_MODE_VIDEO_MIPI).1 = 0 ∧
      (rk628_combtxphy_set_mode (phy0 (119 * 256)) .PHY_MODE_VIDEO_MIPI).2.bus_width = 96) := by
  decide

/-- C5: the MIPI-DSI forward map is idempotent. When `set_mode` accepts a parameter and
reports the achievable rate `a` with flags `f`, a second MIPI-DSI call with the
parameter `(a << 8) | f` is accepted too, stores the same configuration (`rate_div`,
`fb_div`, `frac_div`, `ref_div`, flags and mode) and reports the same rate `a`. -/
theorem set_mode_mipi_idempotent (p : phy)
    (h : (rk628_combtxphy_set_mode p .PHY_MODE_VIDEO_MIPI).1 = 0) :
    (rk628_combtxphy_set_mode
      (phy_set_bus_width (rk628_combtxphy_set_mode p .PHY_MODE_VIDEO_MIPI).2
        (((rk628_combtxphy_set_mode p .PHY_MODE_VIDEO_MIPI).2.bus_width.toNat <<< 8 |||
          (rk628_combtxphy_set_mode p .PHY_MODE_VIDEO_MIPI).2.drvdata.flags : Nat) : Int))
      .PHY_MODE_VIDEO_MIPI).1 = 0 ∧
    (rk628_combtxphy_set_mode
      (phy_set_bus_width (rk628_combtxphy_set_mode p .PHY_MODE_VIDEO_MIPI).2
        (((rk628_combtxphy_set_mode p .PHY_MODE_VIDEO_MIPI).2.bus_width.toNat <<< 8 |||
          (rk628_combtxphy_set_mode p .PHY_MODE_VIDEO_MIPI).2.drvdata.flags : Nat) : Int))
      .PHY_MODE_VIDEO_MIPI).2.drvdata =
        (rk628_combtxphy_set_mode p .PHY_MODE_VIDEO_MIPI).2.drvdata ∧
    (rk628_combtxphy_set_mode
      (phy_set_bus_width (rk628_combtxphy_set_mode p .PHY_MODE_VIDEO_MIPI).2
        (((rk628_combtxphy_set_mode p .PHY_MODE_VIDEO_MIPI).2.bus_width.toNat <<< 8 |||
          (rk628_combtxphy_set_mode p .PHY_MODE_VIDEO_MIPI).2.drvdata.flags : Nat) : Int))
      .PHY_MODE_VIDEO_MIPI).2.bus_width =
        (rk628_combtxphy_set_mode p .PHY_MODE_VIDEO_MIPI).2.bus_width := by
  by_cases hr : to_u32 (p.bus_width >>> (8 : Nat)) < 96 ∨
      1511 < to_u32 (p.bus_width >>> (8 : Nat))
  · rw [set_mode_mipi_reject p _ rfl hr] at h
    exact absurd h neg_EINVAL_ne_zero
  · obtain ⟨r, hrr⟩ : ∃ r, to_u32 (p.bus_width >>> (8 : Nat)) = r := ⟨_, rfl⟩
    rw [hrr] at hr
    obtain ⟨a, ha⟩ : ∃ a, 24 * (r / 24) = a := ⟨_, rfl⟩
    obtain ⟨f, hf⟩ : ∃ f, to_u32 p.bus_width &&& 0xff = f := ⟨_, rfl⟩
    have hf1 : f < 256 := by rw [← hf, and_0xff]; omega
    rw [set_mode_mipi_accept p r hrr (by omega) (by omega)]
    simp only [phy_set_bus_width, ha, hf, Int.toNat_ofNat]
    have hq : a <<< 8 ||| f = 256 * a + f := shl8_or a f hf1
    have hq1 : to_u32 (((a <<< 8 ||| f : Nat) : Int) >>> (8 : Nat)) = a := by
      rw [hq, shr8, show ((256 * a + f : Nat) : Int) / 256 = ((a : Nat) : Int) by omega]
      exact to_u32_natCast a (by omega)
    have hq2 : to_u32 ((a <<< 8 ||| f : Nat) : Int) &&& 0xff = f := by
      rw [hq, to_u32_natCast _ (by omega), and_0xff]
      omega
    have ha24 : 24 * (a / 24) = a := by omega
    rw [set_mode_mipi_accept _ a hq1 (by omega) (by omega)]
    simp only [ha24, hq2, and_self]

/-- Witness for C5: a request of 500 MHz with both module flags is accepted, and so is
the reported rate with the same flags. -/
theorem set_mode_mipi_idempotent_witness :
    (rk628_combtxphy_set_mode (phy0 128003) .PHY_MODE_VIDEO_MIPI).1 = 0 ∧
    (rk628_combtxphy_set_mode
      (phy_set_bus_width (rk628_combtxphy_set_mode (phy0 128003) .PHY_MODE_VIDEO_MIPI).2
        (((rk628_combtxphy_set_mode (phy0 128003) .PHY_MODE_VIDEO_MIPI).2.bus_width.toNat <<< 8 |||
          (rk628_combtxphy_set_mode (phy0 128003) .PHY_MODE_VIDEO_MIPI).2.drvdata.flags : Nat) : Int))
      .PHY_MODE_VIDEO_MIPI).1 = 0 :=
  ⟨by decide, (set_mode_mipi_idempotent (phy0 128003) (by decide)).1⟩

/-! ## Rate divider, feedback divider and fractional divider -/

/-- C6 (as amended): for every MIPI-DSI request that `set_mode` accepts, the stored
`rate_div` is selected by the fixed thresholds from the requested rate `r` rounded down
to a multiple of 24 MHz (4 below 375, 2 below 750, else 1); in terms of `r` itself it
is 4 when `r < 384`, 2 when `384 ≤ r < 768` and 1 when `r ≥ 768`. -/
theorem set_mode_mipi_rate_div (p : phy)
    (hmin : INT_MIN ≤ p.bus_width) (hmax : p.bus_width ≤ INT_MAX)
    (h : (rk628_combtxphy_set_mode p .PHY_MODE_VIDEO_MIPI).1 = 0) :
    (rk628_combtxphy_set_mode p .PHY_MODE_VIDEO_MIPI).2.drvdata.rate_div =
      (if 24 * (p.bus_width >>> (8 : Nat) / 24) < 375 then 4
        else if 24 * (p.bus_width >>> (8 : Nat) / 24) < 750 then 2 else 1) ∧
    (rk628_combtxphy_set_mode p .PHY_MODE_VIDEO_MIPI).2.drvdata.rate_div =
      (if p.bus_width >>> (8 : Nat) < 384 then 4
        else if p.bus_width >>> (8 : Nat) < 768 then 2 else 1) := by
  have hs : INT_MIN ≤ p.bus_width >>> (8 : Nat) ∧ p.bus_width >>> (8 : Nat) ≤ INT_MAX := by
    rw [shr8]; unfold INT_MIN INT_MAX at *; omega
  have hc := to_u32_of_int _ hs.1 hs.2
  unfold INT_MIN INT_MAX at hs
  by_cases hr : to_u32 (p.bus_width >>> (8 : Nat)) < 96 ∨
      1511 < to_u32 (p.bus_width >>> (8 : Nat))
  · rw [set_mode_mipi_reject p _ rfl hr] at h
    exact absurd h neg_EINVAL_ne_zero
  · rw [set_mode_mipi_accept p _ rfl (by omega) (by omega)]
    constructor
    · show (if _ then 4 else if _ then 2 else 1) = _
      split_ifs <;> omega
    · show (if _ then 4 else if _ then 2 else 1) = _
      split_ifs <;> omega

/-- Witness for C6: a request of 500 MHz is accepted with `rate_div = 2`. -/
theorem set_mode_mipi_rate_div_witness :
    (rk628_combtxphy_set_mode (phy0 128003) .PHY_MODE_VIDEO_MIPI).1 = 0 ∧
    (rk628_combtxphy_set_mode (phy0 128003) .PHY_MODE_VIDEO_MIPI).2.drvdata.rate_div =
      (if (phy0 128003).bus_width >>> (8 : Nat) < 384 then 4
        else if (phy0 128003).bus_width >>> (8 : Nat) < 768 then 2 else 1) :=
  ⟨by decide, (set_mode_mipi_rate_div (phy0 128003) (by decide) (by decide) (by decide)).2⟩

/-- C6, as stated, fails: the requested rate 375 MHz is accepted with `rate_div = 4`
(the claim gives 2), and the requested rate 750 MHz is accepted with `rate_div = 2`
(the claim gives 1). -/
theorem set_mode_mipi_rate_div_counterexample :
    ((375 * 256 : Int) >>> (8 : Nat) = 375 ∧
      (rk628_combtxphy_set_mode (phy0 (375 * 256)) .PHY_MODE_VIDEO_MIPI).1 = 0 ∧
      (rk628_combtxphy_set_mode (phy0 (375 * 256)) .PHY_MODE_VIDEO_MIPI).2.drvdata.rate_div = 4) ∧
    ((750 * 256 : Int) >>> (8 : Nat) = 750 ∧
      (rk628_combtxphy_set_mode (phy0 (750 * 256)) .PHY_MODE_VIDEO_MIPI).1 = 0 ∧
      (rk628_combtxphy_set_mode (phy0 (750 * 256)) .PHY_MODE_VIDEO_MIPI).2.drvdata.rate_div = 2) := by
  decide

/-- C7: with `fhsc` the low 12 bits of the bus-width parameter, `set_mode` in GVI mode
returns `-EINVAL` exactly when `fhsc < 500` or `fhsc > 4000`; otherwise it succeeds with
`rate_div` 4 if `fhsc < 1000`, 2 if `fhsc < 2000`, else 1, with `ref_div = 1` and with
`fb_div = floor(fhsc * rate_div / (8 * 24))`. A request of 3000 gives `rate_div = 1`
and `fb_div = 15`. -/
theorem set_mode_gvi_spec (p : phy) :
    ((rk628_combtxphy_set_mode p .PHY_MODE_GVI).1 = -EINVAL ↔
      (to_u32 p.bus_width &&& 0xfff < 500 ∨ 4000 < to_u32 p.bus_width &&& 0xfff)) ∧
    (¬ (to_u32 p.bus_width &&& 0xfff < 500 ∨ 4000 < to_u32 p.bus_width &&& 0xfff) →
      (rk628_combtxphy_set_mode p .PHY_MODE_GVI).1 = 0 ∧
      (rk628_combtxphy_set_mode p .PHY_MODE_GVI).2.drvdata.rate_div =
        (if to_u32 p.bus_width &&& 0xfff < 1000 then 4
          else if to_u32 p.bus_width &&& 0xfff < 2000 then 2 else 1) ∧
      (rk628_combtxphy_set_mode p .PHY_MODE_GVI).2.drvdata.ref_div = 1 ∧
      (rk628_combtxphy_set_mode p .PHY_MODE_GVI).2.drvdata.fb_div =
        (to_u32 p.bus_width &&& 0xfff) *
          (rk628_combtxphy_set_mode p .PHY_MODE_GVI).2.drvdata.rate_div / (8 * 24)) ∧
    (to_u32 p.bus_width &&& 0xfff = 3000 →
      (rk628_combtxphy_set_mode p .PHY_MODE_GVI).1 = 0 ∧
      (rk628_combtxphy_set_mode p .PHY_MODE_GVI).2.drvdata.rate_div = 1 ∧
      (rk628_combtxphy_set_mode p .PHY_MODE_GVI).2.drvdata.fb_div = 15) := by
  by_cases hr : to_u32 p.bus_width &&& 0xfff < 500 ∨ 4000 < to_u32 p.bus_width &&& 0xfff
  · rw [set_mode_gvi_reject p _ rfl hr]
    refine ⟨⟨fun _ => hr, fun _ => rfl⟩, fun hn => absurd hr hn, fun h3 => ?_⟩
    omega
  · rw [set_mode_gvi_accept p _ rfl (by omega) (by omega)]
    refine ⟨⟨fun he => absurd he.symm neg_EINVAL_ne_zero, fun hc => absurd hc hr⟩,
      fun _ => ⟨rfl, rfl, rfl, rfl⟩, fun h3 => ?_⟩
    simp only [h3]
    decide

/-- Witness for C7: the GVI request 3000 is accepted with `rate_div = 1` and
`fb_div = 15`. -/
theorem set_mode_gvi_spec_witness :
    to_u32 (phy0 3000).bus_width &&& 0xfff = 3000 ∧
    (rk628_combtxphy_set_mode (phy0 3000) .PHY_MODE_GVI).1 = 0 ∧
    (rk628_combtxphy_set_mode (phy0 3000) .PHY_MODE_GVI).2.drvdata.rate_div = 1 ∧
    (rk628_combtxphy_set_mode (phy0 3000) .PHY_MODE_GVI).2.drvdata.fb_div = 15 :=
  ⟨by decide, (set_mode_gvi_spec (phy0 3000)).2.2 (by decide)⟩

/-- C8 (as amended): for every accepted MIPI-DSI or GVI request, with `f_target` the
rate the computation starts from (for MIPI-DSI the requested rate rounded down to a
multiple of 24 MHz, for GVI the low 12 bits of the parameter),
`fvco = f_target*2*rate_div` (MIPI-DSI) or `f_target*rate_div` (GVI),
`fb = floor(fvco/192)` and `frac_rate = fvco - 192*fb`: the stored `frac_div` is 0 when
`frac_rate = 0` and otherwise `(frac_rate * 1024) / 192` rounded down (truncated, not
rounded to the nearest integer). -/
theorem set_mode_frac_div_trunc (p : phy) :
    ((rk628_combtxphy_set_mode p .PHY_MODE_VIDEO_MIPI).1 = 0 →
      (rk628_combtxphy_set_mode p .PHY_MODE_VIDEO_MIPI).2.drvdata.frac_div =
        trunc_frac_div (24 * (to_u32 (p.bus_width >>> (8 : Nat)) / 24) * 2 *
          (rk628_combtxphy_set_mode p .PHY_MODE_VIDEO_MIPI).2.drvdata.rate_div)) ∧
    ((rk628_combtxphy_set_mode p .PHY_MODE_GVI).1 = 0 →
      (rk628_combtxphy_set_mode p .PHY_MODE_GVI).2.drvdata.frac_div =
        trunc_frac_div ((to_u32 p.bus_width &&& 0xfff) *
          (rk628_combtxphy_set_mode p .PHY_MODE_GVI).2.drvdata.rate_div)) := by
  constructor
  · intro h
    by_cases hr : to_u32 (p.bus_width >>> (8 : Nat)) < 96 ∨
        1511 < to_u32 (p.bus_width >>> (8 : Nat))
    · rw [set_mode_mipi_reject p _ rfl hr] at h
      exact absurd h neg_EINVAL_ne_zero
    · rw [set_mode_mipi_accept p _ rfl (by omega) (by omega), trunc_frac_div_eq]
  · intro h
    by_cases hr : to_u32 p.bus_width &&& 0xfff < 500 ∨ 4000 < to_u32 p.bus_width &&& 0xfff
    · rw [set_mode_gvi_reject p _ rfl hr] at h
      exact absurd h neg_EINVAL_ne_zero
    · rw [set_mode_gvi_accept p _ rfl (by omega) (by omega), trunc_frac_div_eq]

/-- Witness for C8: the GVI request 500 is accepted and stores the truncated
fractional divider of `fvco = 2000`, which is 426. -/
theorem set_mode_frac_div_trunc_witness :
    (rk628_combtxphy_set_mode (phy0 500) .PHY_MODE_GVI).1 = 0 ∧
    (rk628_combtxphy_set_mode (phy0 500) .PHY_MODE_GVI).2.drvdata.frac_div =
      trunc_frac_div ((to_u32 (phy0 500).bus_width &&& 0xfff) *
        (rk628_combtxphy_set_mode (phy0 500) .PHY_MODE_GVI).2.drvdata.rate_div) ∧
    trunc_frac_div 2000 = 426 :=
  ⟨by decide, (set_mode_frac_div_trunc (phy0 500)).2 (by decide), by decide⟩

/-- C8, as stated, fails: the GVI request 500 is accepted with `rate_div = 4`, so
`fvco = 2000`, `fb = 10` and `frac_rate = 80`; `80 * 1024 / 192 = 426.67` rounds to
427, and the code stores 426. -/
theorem set_mode_frac_div_counterexample :
    to_u32 (phy0 500).bus_width &&& 0xfff = 500 ∧
    (rk628_combtxphy_set_mode (phy0 500) .PHY_MODE_GVI).1 = 0 ∧
    (rk628_combtxphy_set_mode (phy0 500) .PHY_MODE_GVI).2.drvdata.rate_div = 4 ∧
    (rk628_combtxphy_set_mode (phy0 500) .PHY_MODE_GVI).2.drvdata.frac_div = 426 ∧
    spec_frac_div (500 * 4) = 427 := by
  decide

/-! ## Flags and the LVDS path -/

/-- C9 (as amended): after a successful `set_mode` in MIPI-DSI mode the stored flags are
the low 8 bits of the bus-width parameter (`p & 0xff`); a successful `set_mode` in GVI
mode does not store flags, they stay what they were before the call. -/
theorem set_mode_flags (p : phy) :
    ((rk628_combtxphy_set_mode p .PHY_MODE_VIDEO_MIPI).1 = 0 →
      (rk628_combtxphy_set_mode p .PHY_MODE_VIDEO_MIPI).2.drvdata.flags =
        to_u32 p.bus_width &&& 0xff) ∧
    ((rk628_combtxphy_set_mode p .PHY_MODE_GVI).1 = 0 →
      (rk628_combtxphy_set_mode p .PHY_MODE_GVI).2.drvdata.flags = p.drvdata.flags) := by
  constructor
  · intro h
    by_cases hr : to_u32 (p.bus_width >>> (8 : Nat)) < 96 ∨
        1511 < to_u32 (p.bus_width >>> (8 : Nat))
    · rw [set_mode_mipi_reject p _ rfl hr] at h
      exact absurd h neg_EINVAL_ne_zero
    · rw [set_mode_mipi_accept p _ rfl (by omega) (by omega)]
  · intro h
    by_cases hr : to_u32 p.bus_width &&& 0xfff < 500 ∨ 4000 < to_u32 p.bus_width &&& 0xfff
    · rw [set_mode_gvi_reject p _ rfl hr] at h
      exact absurd h neg_EINVAL_ne_zero
    · rw [set_mode_gvi_accept p _ rfl (by omega) (by omega)]

/-- Witness for C9: a MIPI-DSI request of 500 MHz with flags 3 is accepted and stores
flags 3. -/
theorem set_mode_flags_witness :
    (rk628_combtxphy_set_mode (phy0 128003) .PHY_MODE_VIDEO_MIPI).1 = 0 ∧
    (rk628_combtxphy_set_mode (phy0 128003) .PHY_MODE_VIDEO_MIPI).2.drvdata.flags =
      to_u32 (phy0 128003).bus_width &&& 0xff ∧
    to_u32 (phy0 128003).bus_width &&& 0xff = 3 :=
  ⟨by decide, (set_mode_flags (phy0 128003)).1 (by decide), by decide⟩

/-- C9, as stated, fails in GVI mode: with prior flags 0 the GVI request 500 is
accepted, the low 8 bits of the parameter are 244, and the stored flags are still 0. -/
theorem set_mode_flags_counterexample :
    (phy0 500).drvdata.flags = 0 ∧
    to_u32 (phy0 500).bus_width &&& 0xff = 244 ∧
    (rk628_combtxphy_set_mode (phy0 500) .PHY_MODE_GVI).1 = 0 ∧
    (rk628_combtxphy_set_mode (phy0 500) .PHY_MODE_GVI).2.drvdata.flags = 0 := by
  decide

/-- C10 (as amended): `set_mode` in LVDS mode never rejects. For every bus-width
parameter `p` (a C `int`) it returns 0, sets the mode to LVDS, the flags to `p & 0xff`,
`ref_div = 1`, `fb_div = 14`, `frac_div = 0`, and `rate_div` from the derived rate, which
is `(p >> 8) * 7` converted to `unsigned int`: 4 if the rate is below 500, 2 if below
1000, else 1. For a non-negative `p` the derived rate is the number `(p >> 8) * 7` and
`rate_div` follows the thresholds on that number; for a negative `p` the conversion
wraps, the derived rate is at least 1000 and `rate_div` is 1. The bus-width parameter
is not written (and neither is the hardware). -/
theorem set_mode_lvds_spec (p : phy) :
    (rk628_combtxphy_set_mode p .PHY_MODE_VIDEO_LVDS).1 = 0 ∧
    (rk628_combtxphy_set_mode p .PHY_MODE_VIDEO_LVDS).2.drvdata.mode = .PHY_MODE_VIDEO_LVDS ∧
    (rk628_combtxphy_set_mode p .PHY_MODE_VIDEO_LVDS).2.drvdata.flags =
      to_u32 p.bus_width &&& 0xff ∧
    (rk628_combtxphy_set_mode p .PHY_MODE_VIDEO_LVDS).2.drvdata.ref_div = 1 ∧
    (rk628_combtxphy_set_mode p .PHY_MODE_VIDEO_LVDS).2.drvdata.fb_div = 14 ∧
    (rk628_combtxphy_set_mode p .PHY_MODE_VIDEO_LVDS).2.drvdata.frac_div = 0 ∧
    (rk628_combtxphy_set_mode p .PHY_MODE_VIDEO_LVDS).2.drvdata.rate_div =
      (if to_u32 ((p.bus_width >>> (8 : Nat)) * 7) < 500 then 4
        else if to_u32 ((p.bus_width >>> (8 : Nat)) * 7) < 1000 then 2 else 1) ∧
    (rk628_combtxphy_set_mode p .PHY_MODE_VIDEO_LVDS).2.bus_width = p.bus_width ∧
    (rk628_combtxphy_set_mode p .PHY_MODE_VIDEO_LVDS).2.hw = p.hw ∧
    (0 ≤ p.bus_width → p.bus_width ≤ INT_MAX →
      ((to_u32 ((p.bus_width >>> (8 : Nat)) * 7) : Nat) : Int) =
        (p.bus_width >>> (8 : Nat)) * 7) ∧
    (0 ≤ p.bus_width → p.bus_width ≤ INT_MAX →
      (rk628_combtxphy_set_mode p .PHY_MODE_VIDEO_LVDS).2.drvdata.rate_div =
        (if (p.bus_width >>> (8 : Nat)) * 7 < 500 then 4
          else if (p.bus_width >>> (8 : Nat)) * 7 < 1000 then 2 else 1)) ∧
    (INT_MIN ≤ p.bus_width → p.bus_width < 0 →
      ((to_u32 ((p.bus_width >>> (8 : Nat)) * 7) : Nat) : Int) =
        (p.bus_width >>> (8 : Nat)) * 7 + 4294967296 ∧
      1000 ≤ to_u32 ((p.bus_width >>> (8 : Nat)) * 7) ∧
      (rk628_combtxphy_set_mode p .PHY_MODE_VIDEO_LVDS).2.drvdata.rate_div = 1) := by
  have hnn : 0 ≤ p.bus_width → p.bus_width ≤ INT_MAX →
      ((to_u32 ((p.bus_width >>> (8 : Nat)) * 7) : Nat) : Int) =
        (p.bus_width >>> (8 : Nat)) * 7 := by
    intro h0 hmax
    unfold INT_MAX at hmax
    rw [to_u32_cast, shr8]
    exact Int.emod_eq_of_lt (by omega) (by omega)
  have hneg : INT_MIN ≤ p.bus_width → p.bus_width < 0 →
      ((to_u32 ((p.bus_width >>> (8 : Nat)) * 7) : Nat) : Int) =
        (p.bus_width >>> (8 : Nat)) * 7 + 4294967296 := by
    intro hmin hlt
    unfold INT_MIN at hmin
    rw [to_u32_cast, shr8, ← Int.add_emod_self]
    exact Int.emod_eq_of_lt (by omega) (by omega)
  refine ⟨rfl, rfl, rfl, rfl, rfl, rfl, rfl, rfl, rfl, hnn, fun h0 hmax => ?_,
    fun hmin hlt => ⟨hneg hmin hlt, ?_, ?_⟩⟩
  · have e := hnn h0 hmax
    rw [set_mode_lvds]
    dsimp only
    split_ifs <;> omega
  · have e := hneg hmin hlt
    unfold INT_MIN at hmin
    rw [shr8] at e
    rw [shr8]
    omega
  · have e := hneg hmin hlt
    unfold INT_MIN at hmin
    rw [set_mode_lvds]
    dsimp only
    rw [shr8] at e ⊢
    split_ifs <;> omega

/-- Witness for C10: a width of 100 with flags 3 gives the derived rate 700 and
`rate_div = 2`. -/
theorem set_mode_lvds_spec_witness :
    (rk628_combtxphy_set_mode (phy0 25603) .PHY_MODE_VIDEO_LVDS).2.drvdata.rate_div = 2 ∧
    ((to_u32 (((phy0 25603).bus_width >>> (8 : Nat)) * 7) : Nat) : Int) = 700 :=
  ⟨by decide,
    ((set_mode_lvds_spec (phy0 25603)).2.2.2.2.2.2.2.2.2.1 (by decide) (by decide)).trans
      (by decide)⟩

/-- C10, as stated, fails for a negative parameter: at `p = -1` the call succeeds, the
number `(p >> 8) * 7` is `-7`, below 500, so the claim gives `rate_div = 4`; as an
`unsigned int` the derived rate is 4294967289 and the code stores `rate_div = 1`. -/
theorem set_mode_lvds_counterexample :
    (rk628_combtxphy_set_mode (phy0 (-1)) .PHY_MODE_VIDEO_LVDS).1 = 0 ∧
    ((phy0 (-1)).bus_width >>> (8 : Nat)) * 7 = -7 ∧
    (if ((phy0 (-1)).bus_width >>> (8 : Nat)) * 7 < 500 then 4
      else if ((phy0 (-1)).bus_width >>> (8 : Nat)) * 7 < 1000 then 2 else 1) = 4 ∧
    to_u32 (((phy0 (-1)).bus_width >>> (8 : Nat)) * 7) = 4294967289 ∧
    (rk628_combtxphy_set_mode (phy0 (-1)) .PHY_MODE_VIDEO_LVDS).2.drvdata.rate_div = 1 := by
  decide

/-! ## Power-off -/

/-- C15: `power_off` is idempotent: for every state, a second `power_off` leaves the
registers (and the whole state) as the first one left them, and both calls return
success. -/
theorem power_off_idempotent (p : phy) :
    (rk628_combtxphy_power_off p).1 = 0 ∧
    (rk628_combtxphy_power_off (rk628_combtxphy_power_off p).2).1 = 0 ∧
    (rk628_combtxphy_power_off (rk628_combtxphy_power_off p).2).2.hw.regmap =
      (rk628_combtxphy_power_off p).2.hw.regmap ∧
    (rk628_combtxphy_power_off (rk628_combtxphy_power_off p).2).2.hw.grf =
      (rk628_combtxphy_power_off p).2.hw.grf ∧
    (rk628_combtxphy_power_off (rk628_combtxphy_power_off p).2).2 =
      (rk628_combtxphy_power_off p).2 := by
  have hreg : (rk628_combtxphy_power_off (rk628_combtxphy_power_off p).2).2.hw.regmap =
      (rk628_combtxphy_power_off p).2.hw.regmap := by
    funext r
    simp only [power_off_eq]
    by_cases hr : r = COMBTXPHY_CON0
    · simp only [hr, if_true, update_bits_idem]
    · simp only [hr, if_false]
  refine ⟨rfl, rfl, hreg, rfl, ?_⟩
  have h2 : (rk628_combtxphy_power_off (rk628_combtxphy_power_off p).2).2 =
      { (rk628_combtxphy_power_off p).2 with
        hw := { (rk628_combtxphy_power_off p).2.hw with
          regmap := (rk628_combtxphy_power_off (rk628_combtxphy_power_off p).2).2.hw.regmap } } :=
    rfl
  rw [h2, hreg]

/-- C16: for every register state and configuration, `power_off` returns success and
leaves `COMBTXPHY_CON0` with the TX idle field (bits 29:20) equal to 0x3ff, the TX
power-down field (bits 17:8) equal to 0x3ff, `SW_PD_PLL` set and `SW_MODULEA_EN` and
`SW_MODULEB_EN` cleared, with the bus clock disabled. Every other bit of the 32-bit
register (bus width, GVI/LVDS enable, MIPI-DSI enable among them), every other PHY
register, the general register file, the reset line, the configuration and the bus
width are unchanged. -/
theorem power_off_spec (p : phy) :
    (rk628_combtxphy_power_off p).1 = 0 ∧
    (rk628_combtxphy_power_off p).2.hw.regmap COMBTXPHY_CON0 &&& SW_TX_IDLE_MASK =
      SW_TX_IDLE 0x3ff ∧
    (rk628_combtxphy_power_off p).2.hw.regmap COMBTXPHY_CON0 >>> 20 &&& 0x3ff = 0x3ff ∧
    (rk628_combtxphy_power_off p).2.hw.regmap COMBTXPHY_CON0 &&& SW_TX_PD_MASK =
      SW_TX_PD 0x3ff ∧
    (rk628_combtxphy_power_off p).2.hw.regmap COMBTXPHY_CON0 >>> 8 &&& 0x3ff = 0x3ff ∧
    (rk628_combtxphy_power_off p).2.hw.regmap COMBTXPHY_CON0 &&& SW_PD_PLL_MASK = SW_PD_PLL ∧
    (rk628_combtxphy_power_off p).2.hw.regmap COMBTXPHY_CON0 &&& SW_MODULEA_EN_MASK = 0 ∧
    (rk628_combtxphy_power_off p).2.hw.regmap COMBTXPHY_CON0 &&& SW_MODULEB_EN_MASK = 0 ∧
    (rk628_combtxphy_power_off p).2.hw.pclk_enabled = false ∧
    (rk628_combtxphy_power_off p).2.hw.regmap COMBTXPHY_CON0 &&&
        (SW_BUS_WIDTH_MASK ||| SW_GVI_LVDS_EN_MASK ||| SW_MIPI_DSI_EN_MASK) =
      p.hw.regmap COMBTXPHY_CON0 &&&
        (SW_BUS_WIDTH_MASK ||| SW_GVI_LVDS_EN_MASK ||| SW_MIPI_DSI_EN_MASK) ∧
    (rk628_combtxphy_power_off p).2.hw.regmap COMBTXPHY_CON0 &&&
        (0xffffffff ^^^ (SW_TX_IDLE_MASK ||| SW_TX_PD_MASK ||| SW_PD_PLL_MASK |||
          SW_MODULEB_EN_MASK ||| SW_MODULEA_EN_MASK)) =
      p.hw.regmap COMBTXPHY_CON0 &&&
        (0xffffffff ^^^ (SW_TX_IDLE_MASK ||| SW_TX_PD_MASK ||| SW_PD_PLL_MASK |||
          SW_MODULEB_EN_MASK ||| SW_MODULEA_EN_MASK)) ∧
    (∀ r, r ≠ COMBTXPHY_CON0 →
      (rk628_combtxphy_power_off p).2.hw.regmap r = p.hw.regmap r) ∧
    (rk628_combtxphy_power_off p).2.hw.grf = p.hw.grf ∧
    (rk628_combtxphy_power_off p).2.hw.rstc_asserted = p.hw.rstc_asserted ∧
    (rk628_combtxphy_power_off p).2.drvdata = p.drvdata ∧
    (rk628_combtxphy_power_off p).2.bus_width = p.bus_width ∧
    (rk628_combtxphy_power_off p).2.hw.rstc_history = p.hw.rstc_history := by
  have hc : (rk628_combtxphy_power_off p).2.hw.regmap COMBTXPHY_CON0 =
      update_bits (p.hw.regmap COMBTXPHY_CON0)
        (SW_TX_IDLE_MASK ||| SW_TX_PD_MASK ||| SW_PD_PLL_MASK |||
          SW_MODULEB_EN_MASK ||| SW_MODULEA_EN_MASK)
        (SW_TX_IDLE 0x3ff ||| SW_TX_PD 0x3ff ||| SW_PD_PLL) := rfl
  have hidle : (rk628_combtxphy_power_off p).2.hw.regmap COMBTXPHY_CON0 &&& SW_TX_IDLE_MASK =
      SW_TX_IDLE 0x3ff := by
    rw [hc, update_bits_and_inside _ _ _ _ (by decide) (by decide)]
    decide
  have hpd : (rk628_combtxphy_power_off p).2.hw.regmap COMBTXPHY_CON0 &&& SW_TX_PD_MASK =
      SW_TX_PD 0x3ff := by
    rw [hc, update_bits_and_inside _ _ _ _ (by decide) (by decide)]
    decide
  refine ⟨rfl, hidle, ?_, hpd, ?_, ?_, ?_, ?_, rfl, ?_, ?_, ?_, rfl, rfl, rfl, rfl, rfl⟩
  · exact field_of_and _ _ _ 20 hidle
  · exact field_of_and _ _ _ 8 hpd
  · rw [hc, update_bits_and_inside _ _ _ _ (by decide) (by decide)]
    decide
  · rw [hc, update_bits_and_inside _ _ _ _ (by decide) (by decide)]
    decide
  · rw [hc, update_bits_and_inside _ _ _ _ (by decide) (by decide)]
    decide
  · rw [hc, update_bits_and_outside _ _ _ _ (by decide) (by decide)]
  · rw [hc, update_bits_and_outside _ _ _ _ (by decide) (by decide)]
  · intro r hr
    rw [power_off_eq]
    exact if_neg hr

/-! ## Power-on -/

/-- C11 (as amended): for every configuration whose mode is not MIPI-DSI, LVDS or GVI
(the unset mode included), `power_on` returns `-EINVAL`, after the part of the sequence
that precedes the mode dispatch: the bus clock is enabled, the reset line has been
pulsed (asserted, then deasserted, once) and is deasserted, and `COMBTXPHY_CON0` has
its TX idle and TX power-down fields
forced to 0x3ff and `SW_PD_PLL` set. Every other bit of `COMBTXPHY_CON0`, every other
PHY register, every register of the general register file, the configuration and the
bus width are as before the call. -/
theorem power_on_unknown_mode (k : rk628_h) (poll : Int) (p : phy)
    (h1 : p.drvdata.mode ≠ .PHY_MODE_VIDEO_MIPI) (h2 : p.drvdata.mode ≠ .PHY_MODE_VIDEO_LVDS)
    (h3 : p.drvdata.mode ≠ .PHY_MODE_GVI) :
    (rk628_combtxphy_power_on k poll p).1 = -EINVAL ∧
    (rk628_combtxphy_power_on k poll p).2.hw.grf = p.hw.grf ∧
    (∀ r, r ≠ COMBTXPHY_CON0 →
      (rk628_combtxphy_power_on k poll p).2.hw.regmap r = p.hw.regmap r) ∧
    (rk628_combtxphy_power_on k poll p).2.hw.regmap COMBTXPHY_CON0 &&&
        (0xffffffff ^^^ (SW_TX_IDLE_MASK ||| SW_TX_PD_MASK ||| SW_PD_PLL_MASK)) =
      p.hw.regmap COMBTXPHY_CON0 &&&
        (0xffffffff ^^^ (SW_TX_IDLE_MASK ||| SW_TX_PD_MASK ||| SW_PD_PLL_MASK)) ∧
    (rk628_combtxphy_power_on k poll p).2.hw.regmap COMBTXPHY_CON0 &&& SW_TX_IDLE_MASK =
      SW_TX_IDLE 0x3ff ∧
    (rk628_combtxphy_power_on k poll p).2.hw.regmap COMBTXPHY_CON0 &&& SW_TX_PD_MASK =
      SW_TX_PD 0x3ff ∧
    (rk628_combtxphy_power_on k poll p).2.hw.regmap COMBTXPHY_CON0 &&& SW_PD_PLL_MASK =
      SW_PD_PLL ∧
    (rk628_combtxphy_power_on k poll p).2.hw.pclk_enabled = true ∧
    (rk628_combtxphy_power_on k poll p).2.hw.rstc_asserted = false ∧
    (rk628_combtxphy_power_on k poll p).2.drvdata = p.drvdata ∧
    (rk628_combtxphy_power_on k poll p).2.bus_width = p.bus_width ∧
    (rk628_combtxphy_power_on k poll p).2.hw.rstc_history =
      false :: true :: p.hw.rstc_history := by
  have he : rk628_combtxphy_power_on k poll p =
      (-EINVAL, { p with hw :=
        (regmap_update_bits
          (reset_control_deassert (reset_control_assert (clk_prepare_enable p.hw)))
          .regmap COMBTXPHY_CON0
          (SW_TX_IDLE_MASK ||| SW_TX_PD_MASK ||| SW_PD_PLL_MASK)
          (SW_TX_IDLE 0x3ff ||| SW_TX_PD 0x3ff ||| SW_PD_PLL)) }) := by
    obtain ⟨bw, ⟨mode, fl, rd, fb, fr, ra⟩, hw⟩ := p
    cases mode with
    | PHY_MODE_INVALID => rfl
    | PHY_MODE_VIDEO_MIPI => exact absurd rfl h1
    | PHY_MODE_VIDEO_LVDS => exact absurd rfl h2
    | PHY_MODE_GVI => exact absurd rfl h3
    | PHY_MODE_OTHER tag => rfl
  rw [he]
  refine ⟨rfl, rfl, ?_, ?_, ?_, ?_, ?_, rfl, rfl, rfl, rfl, rfl⟩
  · intro r hr
    exact update_bits_regmap_other _ _ _ _ r hr
  all_goals
    simp (disch := decide) only [update_bits_regmap_same, clk_prepare_enable_regmap,
      reset_control_assert_regmap, reset_control_deassert_regmap,
      update_bits_and_inside, update_bits_and_outside]
  all_goals decide

/-- Witness for C11: the unset mode right after attach. -/
theorem power_on_unknown_mode_witness :
    (phy0 0).drvdata.mode = .PHY_MODE_INVALID ∧
    (rk628_combtxphy_power_on rk628_h0 0 (phy0 0)).1 = -EINVAL ∧
    (rk628_combtxphy_power_on rk628_h0 0 (phy0 0)).2.hw.grf = (phy0 0).hw.grf :=
  ⟨rfl, (power_on_unknown_mode rk628_h0 0 (phy0 0) (by decide) (by decide) (by decide)).1,
    (power_on_unknown_mode rk628_h0 0 (phy0 0) (by decide) (by decide) (by decide)).2.1⟩

/-- C11, as stated, fails: with the unset mode, all registers zero and the bus clock
off, `power_on` returns `-EINVAL` and has written `COMBTXPHY_CON0` (0 before,
0x3ff3ff10 after) and enabled the bus clock. -/
theorem power_on_unknown_mode_counterexample :
    (phy0 0).drvdata.mode = .PHY_MODE_INVALID ∧
    (rk628_combtxphy_power_on rk628_h0 0 (phy0 0)).1 = -EINVAL ∧
    (phy0 0).hw.regmap COMBTXPHY_CON0 = 0 ∧
    (rk628_combtxphy_power_on rk628_h0 0 (phy0 0)).2.hw.regmap COMBTXPHY_CON0 = 0x3ff3ff10 ∧
    (phy0 0).hw.pclk_enabled = false ∧
    (rk628_combtxphy_power_on rk628_h0 0 (phy0 0)).2.hw.pclk_enabled = true := by
  decide

/-- C12: MIPI-DSI and LVDS, the lock poll being a parameter. When the lock bit is not
observed (`poll < 0`), `power_on` returns the poll's failure code and the register
state is the one reached when the PLL was powered up: for MIPI-DSI `COMBTXPHY_CON9`
(the FSET/RCAL enable bits with it) is as before the call, for LVDS the TX idle field
of `COMBTXPHY_CON0` still holds 0x3ff. When the lock bit is observed (`0 ≤ ok`),
`power_on` returns success, and its hardware state is the state of the failing run
followed by the one register update that comes after the poll. -/
theorem power_on_lock_poll (k : rk628_h) (poll ok : Int) (p : phy)
    (hfail : poll < 0) (hok : 0 ≤ ok) :
    (p.drvdata.mode = .PHY_MODE_VIDEO_MIPI →
      (rk628_combtxphy_power_on k poll p).1 = poll ∧
      (rk628_combtxphy_power_on k poll p).2.hw.regmap COMBTXPHY_CON9 =
        p.hw.regmap COMBTXPHY_CON9 ∧
      (rk628_combtxphy_power_on k ok p).1 = 0 ∧
      (rk628_combtxphy_power_on k ok p).2.hw =
        regmap_update_bits (rk628_combtxphy_power_on k poll p).2.hw .regmap COMBTXPHY_CON9
          (SW_DSI_FSET_EN_MASK ||| SW_DSI_RCAL_EN_MASK) (SW_DSI_FSET_EN ||| SW_DSI_RCAL_EN)) ∧
    (p.drvdata.mode = .PHY_MODE_VIDEO_LVDS →
      (rk628_combtxphy_power_on k poll p).1 = poll ∧
      (rk628_combtxphy_power_on k poll p).2.hw.regmap COMBTXPHY_CON0 &&& SW_TX_IDLE_MASK =
        SW_TX_IDLE 0x3ff ∧
      (rk628_combtxphy_power_on k ok p).1 = 0 ∧
      (rk628_combtxphy_power_on k ok p).2.hw =
        regmap_update_bits (rk628_combtxphy_power_on k poll p).2.hw .regmap COMBTXPHY_CON0
          SW_TX_IDLE_MASK 0) := by
  have hok' : ¬ ok < 0 := not_lt.mpr hok
  constructor
  · intro hm
    unfold rk628_combtxphy_power_on
    simp only [hm]
    unfold rk628_combtxphy_dsi_power_on
    simp only [if_pos hfail, if_neg hok', true_and]
    split_ifs <;>
    simp (disch := decide) only [update_bits_regmap_other, update_bits_grf_regmap,
      write_regmap_other, clk_prepare_enable_regmap, reset_control_assert_regmap,
      reset_control_deassert_regmap, and_self]
  · intro hm
    unfold rk628_combtxphy_power_on
    simp only [hm]
    unfold rk628_combtxphy_lvds_power_on
    simp only [if_pos hfail, if_neg hok', true_and, and_true]
    split_ifs <;>
    · simp (disch := decide) only [update_bits_regmap_same, update_bits_regmap_other,
        update_bits_grf_regmap, write_regmap_same, write_regmap_other,
        clk_prepare_enable_regmap, reset_control_assert_regmap, reset_control_deassert_regmap,
        update_bits_and_inside, update_bits_and_outside]
      decide

/-- Witness for C12: a MIPI-DSI configuration (500 MHz requested), with the poll
timing out (`-110`) and with the lock observed. -/
theorem power_on_lock_poll_witness :
    (-110 : Int) < 0 ∧ (0 : Int) ≤ 0 ∧
    (rk628_combtxphy_set_mode (phy0 128003) .PHY_MODE_VIDEO_MIPI).2.drvdata.mode =
      .PHY_MODE_VIDEO_MIPI ∧
    (rk628_combtxphy_power_on rk628_h0 (-110)
      (rk628_combtxphy_set_mode (phy0 128003) .PHY_MODE_VIDEO_MIPI).2).1 = -110 ∧
    (rk628_combtxphy_power_on rk628_h0 0
      (rk628_combtxphy_set_mode (phy0 128003) .PHY_MODE_VIDEO_MIPI).2).1 = 0 :=
  ⟨by decide, by decide, by decide,
    ((power_on_lock_poll rk628_h0 (-110) 0
      (rk628_combtxphy_set_mode (phy0 128003) .PHY_MODE_VIDEO_MIPI).2
      (by decide) (by decide)).1 (by decide)).1,
    ((power_on_lock_poll rk628_h0 (-110) 0
      (rk628_combtxphy_set_mode (phy0 128003) .PHY_MODE_VIDEO_MIPI).2
      (by decide) (by decide)).1 (by decide)).2.2.1⟩

/-- C13: for every initial register state and every LVDS configuration, `power_on`
leaves the `SW_TX_MODE` field (bits 17:16 of `COMBTXPHY_CON7`) equal to 3 and
`COMBTXPHY_CON10` equal to exactly `TX7_CKDRV_EN | TX2_CKDRV_EN` (0x84); the TX idle
field of `COMBTXPHY_CON0` (bits 29:20) is 0 if the lock bit was observed and 0x3ff if
it was not. -/
theorem power_on_lvds_spec (k : rk628_h) (poll : Int) (p : phy)
    (hm : p.drvdata.mode = .PHY_MODE_VIDEO_LVDS) :
    (rk628_combtxphy_power_on k poll p).2.hw.regmap COMBTXPHY_CON7 &&& SW_TX_MODE_MASK =
      SW_TX_MODE 3 ∧
    (rk628_combtxphy_power_on k poll p).2.hw.regmap COMBTXPHY_CON7 >>> 16 &&& 3 = 3 ∧
    (rk628_combtxphy_power_on k poll p).2.hw.regmap COMBTXPHY_CON10 =
      TX7_CKDRV_EN ||| TX2_CKDRV_EN ∧
    (rk628_combtxphy_power_on k poll p).2.hw.regmap COMBTXPHY_CON10 = 0x84 ∧
    (0 ≤ poll →
      (rk628_combtxphy_power_on k poll p).2.hw.regmap COMBTXPHY_CON0 &&& SW_TX_IDLE_MASK = 0 ∧
      (rk628_combtxphy_power_on k poll p).2.hw.regmap COMBTXPHY_CON0 >>> 20 &&& 0x3ff = 0) ∧
    (poll < 0 →
      (rk628_combtxphy_power_on k poll p).2.hw.regmap COMBTXPHY_CON0 &&& SW_TX_IDLE_MASK =
        SW_TX_IDLE 0x3ff ∧
      (rk628_combtxphy_power_on k poll p).2.hw.regmap COMBTXPHY_CON0 >>> 20 &&& 0x3ff =
        0x3ff) := by
  have h7 : (rk628_combtxphy_power_on k poll p).2.hw.regmap COMBTXPHY_CON7 &&& SW_TX_MODE_MASK =
      SW_TX_MODE 3 := by
    unfold rk628_combtxphy_power_on
    simp only [hm]
    unfold rk628_combtxphy_lvds_power_on
    dsimp only
    split_ifs <;>
    · simp (disch := decide) only [update_bits_regmap_same, update_bits_regmap_other,
        update_bits_grf_regmap, write_regmap_same, write_regmap_other,
        clk_prepare_enable_regmap, reset_control_assert_regmap, reset_control_deassert_regmap,
        update_bits_and_inside, update_bits_and_outside]
      decide
  have h10 : (rk628_combtxphy_power_on k poll p).2.hw.regmap COMBTXPHY_CON10 =
      TX7_CKDRV_EN ||| TX2_CKDRV_EN := by
    unfold rk628_combtxphy_power_on
    simp only [hm]
    unfold rk628_combtxphy_lvds_power_on
    dsimp only
    split_ifs <;>
    · simp (disch := decide) only [update_bits_regmap_same, update_bits_regmap_other,
        update_bits_grf_regmap, write_regmap_same, write_regmap_other,
        clk_prepare_enable_regmap, reset_control_assert_regmap, reset_control_deassert_regmap]
      decide
  have hok : 0 ≤ poll →
      (rk628_combtxphy_power_on k poll p).2.hw.regmap COMBTXPHY_CON0 &&& SW_TX_IDLE_MASK = 0 := by
    intro hp
    unfold rk628_combtxphy_power_on
    simp only [hm]
    unfold rk628_combtxphy_lvds_power_on
    simp only [if_neg (not_lt.mpr hp)]
    split_ifs <;>
    · simp (disch := decide) only [update_bits_regmap_same, update_bits_regmap_other,
        update_bits_grf_regmap, write_regmap_same, write_regmap_other,
        clk_prepare_enable_regmap, reset_control_assert_regmap, reset_control_deassert_regmap,
        update_bits_and_inside, update_bits_and_outside]
      decide
  have hfail : poll < 0 →
      (rk628_combtxphy_power_on k poll p).2.hw.regmap COMBTXPHY_CON0 &&& SW_TX_IDLE_MASK =
        SW_TX_IDLE 0x3ff := by
    intro hp
    unfold rk628_combtxphy_power_on
    simp only [hm]
    unfold rk628_combtxphy_lvds_power_on
    simp only [if_pos hp]
    split_ifs <;>
    · simp (disch := decide) only [update_bits_regmap_same, update_bits_regmap_other,
        update_bits_grf_regmap, write_regmap_same, write_regmap_other,
        clk_prepare_enable_regmap, reset_control_assert_regmap, reset_control_deassert_regmap,
        update_bits_and_inside, update_bits_and_outside]
      decide
  refine ⟨h7, field_of_and _ _ _ 16 h7, h10, h10.trans (by decide),
    fun hp => ⟨hok hp, field_of_and _ _ _ 20 (hok hp)⟩,
    fun hp => ⟨hfail hp, field_of_and _ _ _ 20 (hfail hp)⟩⟩

/-- Witness for C13: an LVDS configuration (width 100, flags 3), lock observed. -/
theorem power_on_lvds_spec_witness :
    (rk628_combtxphy_set_mode (phy0 25603) .PHY_MODE_VIDEO_LVDS).2.drvdata.mode =
      .PHY_MODE_VIDEO_LVDS ∧
    (rk628_combtxphy_power_on rk628_h0 0
      (rk628_combtxphy_set_mode (phy0 25603) .PHY_MODE_VIDEO_LVDS).2).2.hw.regmap
        COMBTXPHY_CON10 = 0x84 :=
  ⟨by decide,
    (power_on_lvds_spec rk628_h0 0
      (rk628_combtxphy_set_mode (phy0 25603) .PHY_MODE_VIDEO_LVDS).2 (by decide)).2.2.2.1⟩

/-- C14: for every value of flags, every initial register state and every outcome of
a lock poll, `power_on` in GVI mode returns success and ends with both `SW_MODULEA_EN`
and `SW_MODULEB_EN` set in `COMBTXPHY_CON0` and with its TX idle and TX power-down
fields cleared; the return value and the final hardware state are the same for any
other flags and any other lock outcome. -/
theorem power_on_gvi_spec (k : rk628_h) (poll other_poll : Int) (other_flags : Nat) (p : phy)
    (hm : p.drvdata.mode = .PHY_MODE_GVI) :
    (rk628_combtxphy_power_on k poll p).1 = 0 ∧
    (rk628_combtxphy_power_on k poll p).2.hw.regmap COMBTXPHY_CON0 &&& SW_MODULEA_EN_MASK =
      SW_MODULEA_EN ∧
    (rk628_combtxphy_power_on k poll p).2.hw.regmap COMBTXPHY_CON0 &&& SW_MODULEB_EN_MASK =
      SW_MODULEB_EN ∧
    (rk628_combtxphy_power_on k poll p).2.hw.regmap COMBTXPHY_CON0 &&& SW_TX_IDLE_MASK = 0 ∧
    (rk628_combtxphy_power_on k poll p).2.hw.regmap COMBTXPHY_CON0 &&& SW_TX_PD_MASK = 0 ∧
    (rk628_combtxphy_power_on k other_poll
      { p with drvdata := { p.drvdata with flags := other_flags } }).1 =
        (rk628_combtxphy_power_on k poll p).1 ∧
    (rk628_combtxphy_power_on k other_poll
      { p with drvdata := { p.drvdata with flags := other_flags } }).2.hw =
        (rk628_combtxphy_power_on k poll p).2.hw := by
  have he : ∀ (q : phy) (c : Int), q.drvdata.mode = .PHY_MODE_GVI →
      rk628_combtxphy_power_on k c q =
        rk628_combtxphy_gvi_power_on { q with hw :=
          (regmap_update_bits
            (regmap_update_bits
              (reset_control_deassert (reset_control_assert (clk_prepare_enable q.hw)))
              .regmap COMBTXPHY_CON0
              (SW_TX_IDLE_MASK ||| SW_TX_PD_MASK ||| SW_PD_PLL_MASK)
              (SW_TX_IDLE 0x3ff ||| SW_TX_PD 0x3ff ||| SW_PD_PLL))
            .grf k.GRF_POST_PROC_CON k.SW_TXPHY_REFCLK_SEL_MASK (k.SW_TXPHY_REFCLK_SEL 0)) } := by
    intro q c hq
    unfold rk628_combtxphy_power_on
    simp only [hq]
  rw [he p poll hm, he _ other_poll (show ({ p with drvdata :=
    { p.drvdata with flags := other_flags } } : phy).drvdata.mode = .PHY_MODE_GVI from hm)]
  refine ⟨rfl, ?_, ?_, ?_, ?_, rfl, rfl⟩
  all_goals
    unfold rk628_combtxphy_gvi_power_on
    simp (disch := decide) only [update_bits_regmap_same, update_bits_regmap_other,
      update_bits_grf_regmap, write_regmap_same, write_regmap_other,
      clk_prepare_enable_regmap, reset_control_assert_regmap, reset_control_deassert_regmap,
      update_bits_and_inside, update_bits_and_outside]
  all_goals decide

/-- Witness for C14: a GVI configuration (3000 MHz requested). -/
theorem power_on_gvi_spec_witness :
    (rk628_combtxphy_set_mode (phy0 3000) .PHY_MODE_GVI).2.drvdata.mode = .PHY_MODE_GVI ∧
    (rk628_combtxphy_power_on rk628_h0 (-110)
      (rk628_combtxphy_set_mode (phy0 3000) .PHY_MODE_GVI).2).1 = 0 :=
  ⟨by decide,
    (power_on_gvi_spec rk628_h0 (-110) 0 3
      (rk628_combtxphy_set_mode (phy0 3000) .PHY_MODE_GVI).2 (by decide)).1⟩

/-! ## The achievable rate in closed form -/

/-- C17: for every MIPI-DSI request that `set_mode` accepts, with requested rate
`r = parameter >> 8`, the achievable rate written back is exactly `24 * floor(r / 24)`,
a value in `[96,1488]`; the stored `frac_div` is one of 0, 256, 512, 768, `fb_div` is
in `[4,15]`, and the final `DIV_ROUND_UP` is an exact division (the dividend is a
multiple of `1024 * ref_div`). -/
theorem set_mode_mipi_closed_form (p : phy)
    (hmin : INT_MIN ≤ p.bus_width) (hmax : p.bus_width ≤ INT_MAX)
    (h : (rk628_combtxphy_set_mode p .PHY_MODE_VIDEO_MIPI).1 = 0) :
    (rk628_combtxphy_set_mode p .PHY_MODE_VIDEO_MIPI).2.bus_width =
      24 * (p.bus_width >>> (8 : Nat) / 24) ∧
    96 ≤ (rk628_combtxphy_set_mode p .PHY_MODE_VIDEO_MIPI).2.bus_width ∧
    (rk628_combtxphy_set_mode p .PHY_MODE_VIDEO_MIPI).2.bus_width ≤ 1488 ∧
    ((rk628_combtxphy_set_mode p .PHY_MODE_VIDEO_MIPI).2.drvdata.frac_div = 0 ∨
      (rk628_combtxphy_set_mode p .PHY_MODE_VIDEO_MIPI).2.drvdata.frac_div = 256 ∨
      (rk628_combtxphy_set_mode p .PHY_MODE_VIDEO_MIPI).2.drvdata.frac_div = 512 ∨
      (rk628_combtxphy_set_mode p .PHY_MODE_VIDEO_MIPI).2.drvdata.frac_div = 768) ∧
    4 ≤ (rk628_combtxphy_set_mode p .PHY_MODE_VIDEO_MIPI).2.drvdata.fb_div ∧
    (rk628_combtxphy_set_mode p .PHY_MODE_VIDEO_MIPI).2.drvdata.fb_div ≤ 15 ∧
    (24 * (1024 * (rk628_combtxphy_set_mode p .PHY_MODE_VIDEO_MIPI).2.drvdata.fb_div +
        (rk628_combtxphy_set_mode p .PHY_MODE_VIDEO_MIPI).2.drvdata.frac_div) * 8) %
      (1024 * (rk628_combtxphy_set_mode p .PHY_MODE_VIDEO_MIPI).2.drvdata.ref_div) = 0 ∧
    DIV_ROUND_UP
        (24 * (1024 * (rk628_combtxphy_set_mode p .PHY_MODE_VIDEO_MIPI).2.drvdata.fb_div +
          (rk628_combtxphy_set_mode p .PHY_MODE_VIDEO_MIPI).2.drvdata.frac_div) * 8)
        (1024 * (rk628_combtxphy_set_mode p .PHY_MODE_VIDEO_MIPI).2.drvdata.ref_div) =
      24 * (1024 * (rk628_combtxphy_set_mode p .PHY_MODE_VIDEO_MIPI).2.drvdata.fb_div +
          (rk628_combtxphy_set_mode p .PHY_MODE_VIDEO_MIPI).2.drvdata.frac_div) * 8 /
        (1024 * (rk628_combtxphy_set_mode p .PHY_MODE_VIDEO_MIPI).2.drvdata.ref_div) := by
  have hs : INT_MIN ≤ p.bus_width >>> (8 : Nat) ∧ p.bus_width >>> (8 : Nat) ≤ INT_MAX := by
    rw [shr8]; unfold INT_MIN INT_MAX at *; omega
  have hc := to_u32_of_int _ hs.1 hs.2
  unfold INT_MIN INT_MAX at hs
  by_cases hr : to_u32 (p.bus_width >>> (8 : Nat)) < 96 ∨
      1511 < to_u32 (p.bus_width >>> (8 : Nat))
  · rw [set_mode_mipi_reject p _ rfl hr] at h
    exact absurd h neg_EINVAL_ne_zero
  · obtain ⟨r, hrr⟩ : ∃ r, to_u32 (p.bus_width >>> (8 : Nat)) = r := ⟨_, rfl⟩
    rw [hrr] at hr hc
    rw [set_mode_mipi_accept p r hrr (by omega) (by omega)]
    dsimp only
    by_cases c1 : 24 * (r / 24) < 375
    · simp only [if_pos c1, DIV_ROUND_UP]
      simp (disch := omega) only [u32_eq, u32_sub_eq]
      refine ⟨?_, ?_, ?_, ?_, ?_, ?_, ?_, ?_⟩ <;> omega
    · by_cases c2 : 24 * (r / 24) < 750
      · simp only [if_neg c1, if_pos c2, DIV_ROUND_UP]
        simp (disch := omega) only [u32_eq, u32_sub_eq]
        refine ⟨?_, ?_, ?_, ?_, ?_, ?_, ?_, ?_⟩ <;> omega
      · simp only [if_neg c1, if_neg c2, DIV_ROUND_UP]
        simp (disch := omega) only [u32_eq, u32_sub_eq]
        refine ⟨?_, ?_, ?_, ?_, ?_, ?_, ?_, ?_⟩ <;> omega

/-- Witness for C17: a request of 500 MHz is accepted and 480 MHz is written back. -/
theorem set_mode_mipi_closed_form_witness :
    (rk628_combtxphy_set_mode (phy0 128003) .PHY_MODE_VIDEO_MIPI).1 = 0 ∧
    (rk628_combtxphy_set_mode (phy0 128003) .PHY_MODE_VIDEO_MIPI).2.bus_width =
      24 * ((phy0 128003).bus_width >>> (8 : Nat) / 24) ∧
    (24 : Int) * ((phy0 128003).bus_width >>> (8 : Nat) / 24) = 480 :=
  ⟨by decide,
    (set_mode_mipi_closed_form (phy0 128003) (by decide) (by decide) (by decide)).1,
    by decide⟩

/-- C18: for every GVI request that `set_mode` accepts, with requested rate `fhsc` (the
low 12 bits of the parameter, in `[500,4000]`), the achievable rate written back to the
bus-width parameter never exceeds the request and is at most 1 MHz below it (it is
`fhsc` or `fhsc - 1`), and it equals `fhsc` whenever `fhsc * rate_div` is a multiple
of 3. -/
theorem set_mode_gvi_achievable (p : phy)
    (h : (rk628_combtxphy_set_mode p .PHY_MODE_GVI).1 = 0) :
    500 ≤ to_u32 p.bus_width &&& 0xfff ∧ to_u32 p.bus_width &&& 0xfff ≤ 4000 ∧
    (rk628_combtxphy_set_mode p .PHY_MODE_GVI).2.bus_width ≤
      ((to_u32 p.bus_width &&& 0xfff : Nat) : Int) ∧
    ((to_u32 p.bus_width &&& 0xfff : Nat) : Int) - 1 ≤
      (rk628_combtxphy_set_mode p .PHY_MODE_GVI).2.bus_width ∧
    ((rk628_combtxphy_set_mode p .PHY_MODE_GVI).2.bus_width =
        ((to_u32 p.bus_width &&& 0xfff : Nat) : Int) ∨
      (rk628_combtxphy_set_mode p .PHY_MODE_GVI).2.bus_width =
        ((to_u32 p.bus_width &&& 0xfff : Nat) : Int) - 1) ∧
    ((to_u32 p.bus_width &&& 0xfff) * (rk628_combtxphy_set_mode p .PHY_MODE_GVI).2.drvdata.rate_div
        % 3 = 0 →
      (rk628_combtxphy_set_mode p .PHY_MODE_GVI).2.bus_width =
        ((to_u32 p.bus_width &&& 0xfff : Nat) : Int)) := by
  by_cases hr : to_u32 p.bus_width &&& 0xfff < 500 ∨ 4000 < to_u32 p.bus_width &&& 0xfff
  · rw [set_mode_gvi_reject p _ rfl hr] at h
    exact absurd h neg_EINVAL_ne_zero
  · obtain ⟨f, hf⟩ : ∃ f, to_u32 p.bus_width &&& 0xfff = f := ⟨_, rfl⟩
    rw [hf] at hr
    rw [set_mode_gvi_accept p f hf (by omega) (by omega)]
    dsimp only
    by_cases c1 : f < 1000
    · simp only [if_pos c1]
      refine ⟨?_, ?_, ?_, ?_, ?_, ?_⟩ <;> omega
    · by_cases c2 : f < 2000
      · simp only [if_neg c1, if_pos c2]
        refine ⟨?_, ?_, ?_, ?_, ?_, ?_⟩ <;> omega
      · simp only [if_neg c1, if_neg c2]
        refine ⟨?_, ?_, ?_, ?_, ?_, ?_⟩ <;> omega

/-- Witness for C18: the GVI request 3000 is accepted and reported unchanged. -/
theorem set_mode_gvi_achievable_witness :
    (rk628_combtxphy_set_mode (phy0 3000) .PHY_MODE_GVI).1 = 0 ∧
    (rk628_combtxphy_set_mode (phy0 3000) .PHY_MODE_GVI).2.bus_width =
      ((to_u32 (phy0 3000).bus_width &&& 0xfff : Nat) : Int) :=
  ⟨by decide, (set_mode_gvi_achievable (phy0 3000) (by decide)).2.2.2.2.2 (by decide)⟩

/-- C19: the GVI forward map is not closed over its accepted range: the request
500 MHz is accepted and the achievable rate reported is 499 MHz, and 499 MHz passed
back to `set_mode` in GVI mode is rejected with `-EINVAL`. -/
theorem set_mode_gvi_not_closed :
    to_u32 (phy0 500).bus_width &&& 0xfff = 500 ∧
    (rk628_combtxphy_set_mode (phy0 500) .PHY_MODE_GVI).1 = 0 ∧
    (rk628_combtxphy_set_mode (phy0 500) .PHY_MODE_GVI).2.bus_width = 499 ∧
    (rk628_combtxphy_set_mode (rk628_combtxphy_set_mode (phy0 500) .PHY_MODE_GVI).2
      .PHY_MODE_GVI).1 = -EINVAL ∧
    (rk628_combtxphy_set_mode (phy0 499) .PHY_MODE_GVI).1 = -EINVAL := by
  decide

/-! ## Packing of the dividers -/

/-- C20 (as amended): divider register packing is lossless. For the configuration `c`
produced by a successful `set_mode` in any of the three modes: `fb_div` fits the 5-bit
feedback field (`fb_div ≤ 31`); no field macro masks anything off; the word `power_on`
writes to `COMBTXPHY_CON5` is `SW_REF_DIV(ref_div-1) | SW_PLL_FB_DIV(fb_div) |
SW_PLL_FRAC_DIV(frac_div) | SW_RATE(rate_div/2)`, the sum of its fields without
overlap, and it decodes back to bits 20:16 = 0, bits 14:10 = `fb_div`, bits 9:0 =
`frac_div` and bits 26:24 = `rate_div/2`, which is 0, 1 or 2. For a C `int` parameter
no `unsigned int` intermediate of a successful MIPI-DSI or GVI call wraps, nor of an
LVDS call with a non-negative parameter, and no value is truncated when stored to the
8-bit and 16-bit fields (every entry of the arithmetic trace fits its width, and the
traced function is `set_mode`). In an LVDS call with a negative parameter the
`unsigned int` rate `(p >> 8) * 7` does wrap: its exact value is negative. -/
theorem con5_packing_lossless (p : phy) (mode : phy_mode) (c : rk628_combtxphy)
    (h : (rk628_combtxphy_set_mode p mode).1 = 0)
    (hc : c = (rk628_combtxphy_set_mode p mode).2.drvdata) :
    c.fb_div ≤ 31 ∧
    (rk628_combtxphy_set_mode_traced p mode).1 = rk628_combtxphy_set_mode p mode ∧
    (INT_MIN ≤ p.bus_width → p.bus_width ≤ INT_MAX →
      (mode = .PHY_MODE_VIDEO_LVDS → 0 ≤ p.bus_width) →
      ∀ e ∈ (rk628_combtxphy_set_mode_traced p mode).2, 0 ≤ e.1 ∧ e.1 < 2 ^ e.2) ∧
    SW_REF_DIV (to_u32 ((c.ref_div : Int) - 1)) = 0 ∧
    SW_PLL_FB_DIV c.fb_div = c.fb_div <<< 10 ∧
    SW_PLL_FRAC_DIV c.frac_div = c.frac_div ∧
    SW_RATE (c.rate_div / 2) = (c.rate_div / 2) <<< 24 ∧
    con5_word c = (c.rate_div / 2) * 2 ^ 24 + c.fb_div * 2 ^ 10 + c.frac_div ∧
    (∀ (k : rk628_h) (poll : Int),
      (rk628_combtxphy_power_on k poll (rk628_combtxphy_set_mode p mode).2).2.hw.regmap
        COMBTXPHY_CON5 = con5_word c) ∧
    con5_word c >>> 16 &&& 0x1f = 0 ∧
    con5_word c >>> 10 &&& 0x1f = c.fb_div ∧
    con5_word c &&& 0x3ff = c.frac_div ∧
    con5_word c >>> 24 &&& 0x7 = c.rate_div / 2 ∧
    c.rate_div / 2 ≤ 2 ∧
    (mode = .PHY_MODE_VIDEO_LVDS → INT_MIN ≤ p.bus_width → p.bus_width < 0 →
      ((p.bus_width >>> (8 : Nat)) * 7, 32) ∈ (rk628_combtxphy_set_mode_traced p mode).2 ∧
      (p.bus_width >>> (8 : Nat)) * 7 < 0 ∧
      ((to_u32 ((p.bus_width >>> (8 : Nat)) * 7) : Nat) : Int) ≠
        (p.bus_width >>> (8 : Nat)) * 7) := by
  have hwrap : mode = .PHY_MODE_VIDEO_LVDS → INT_MIN ≤ p.bus_width → p.bus_width < 0 →
      ((p.bus_width >>> (8 : Nat)) * 7, 32) ∈ (rk628_combtxphy_set_mode_traced p mode).2 ∧
      (p.bus_width >>> (8 : Nat)) * 7 < 0 ∧
      ((to_u32 ((p.bus_width >>> (8 : Nat)) * 7) : Nat) : Int) ≠
        (p.bus_width >>> (8 : Nat)) * 7 := by
    intro hm hmin hlt
    subst hm
    unfold INT_MIN at hmin
    refine ⟨?_, ?_, ?_⟩
    · unfold rk628_combtxphy_set_mode_traced
      simp only [phy_get_bus_width, List.mem_cons, true_or, or_true]
    · rw [shr8]
      omega
    · rw [shr8]
      omega
  obtain ⟨hmode, hsup, href, hfb, hfrac, hrate⟩ := set_mode_success_bounds p mode h
  rw [← hc] at hmode href hfb hfrac hrate
  have hr2 : c.rate_div / 2 ≤ 2 := by omega
  have hw : con5_word c = c.rate_div / 2 * 16777216 + c.fb_div * 1024 + c.frac_div :=
    con5_word_eq c href (by omega) (by omega) (by omega)
  refine ⟨by omega, set_mode_traced_fst p mode,
    fun hmin hmax hl => set_mode_traced_fits p mode hmin hmax h hl, ?_, ?_,
    SW_PLL_FRAC_DIV_eq _ (by omega), ?_, ?_, ?_, ?_, ?_, ?_, ?_, hr2, hwrap⟩
  · rw [href]
    decide
  · rw [SW_PLL_FB_DIV_eq _ (by omega), Nat.shiftLeft_eq]
  · rw [SW_RATE_eq _ (by omega), Nat.shiftLeft_eq]
  · rw [hw]
    omega
  · intro k poll
    rw [power_on_con5 k poll _ (by rw [← hc, hmode]; exact hsup), ← hc, hw]
    exact u32_eq _ (by omega)
  · rw [hw, Nat.shiftRight_eq_div_pow, and_0x1f]
    omega
  · rw [hw, Nat.shiftRight_eq_div_pow, and_0x1f]
    omega
  · rw [hw, and_0x3ff]
    omega
  · rw [hw, Nat.shiftRight_eq_div_pow, and_0x7]
    omega

/-- Witness for C20: the GVI request 3000 gives `fb_div = 15`, `frac_div = 640` and
`rate_div = 1`, packed as the word 16000, and every entry of its trace fits. -/
theorem con5_packing_lossless_witness :
    (rk628_combtxphy_set_mode (phy0 3000) .PHY_MODE_GVI).1 = 0 ∧
    con5_word (rk628_combtxphy_set_mode (phy0 3000) .PHY_MODE_GVI).2.drvdata >>> 10 &&& 0x1f =
      (rk628_combtxphy_set_mode (phy0 3000) .PHY_MODE_GVI).2.drvdata.fb_div ∧
    con5_word (rk628_combtxphy_set_mode (phy0 3000) .PHY_MODE_GVI).2.drvdata = 16000 ∧
    (∀ e ∈ (rk628_combtxphy_set_mode_traced (phy0 3000) .PHY_MODE_GVI).2,
      0 ≤ e.1 ∧ e.1 < 2 ^ e.2) :=
  ⟨by decide,
    (con5_packing_lossless (phy0 3000) .PHY_MODE_GVI _ (by decide) rfl).2.2.2.2.2.2.2.2.2.2.1,
    by decide,
    (con5_packing_lossless (phy0 3000) .PHY_MODE_GVI _ (by decide) rfl).2.2.1
      (by decide) (by decide) (by decide)⟩

/-- C20, as stated, fails in its last clause: the LVDS call with the parameter `-1`
succeeds, and its `unsigned int` intermediate `rate = (p >> 8) * 7` has the exact value
`-7`, which wraps to 4294967289. -/
theorem con5_packing_counterexample :
    (rk628_combtxphy_set_mode (phy0 (-1)) .PHY_MODE_VIDEO_LVDS).1 = 0 ∧
    (rk628_combtxphy_set_mode_traced (phy0 (-1)) .PHY_MODE_VIDEO_LVDS).1 =
      rk628_combtxphy_set_mode (phy0 (-1)) .PHY_MODE_VIDEO_LVDS ∧
    ((-7 : Int), 32) ∈ (rk628_combtxphy_set_mode_traced (phy0 (-1)) .PHY_MODE_VIDEO_LVDS).2 ∧
    ((phy0 (-1)).bus_width >>> (8 : Nat)) * 7 = -7 ∧
    to_u32 (((phy0 (-1)).bus_width >>> (8 : Nat)) * 7) = 4294967289 :=
  ⟨by decide, rfl, by decide, by decide, by decide⟩

end RK628
